import Mathlib

/-!
Shallow embedding of the `nc-token` on-chain programs (governance and
presale) and verification of the frozen specification claims.

Machine integers are modelled as `Nat` / `Int` with explicit `% 2^w`
wrapping where the source arithmetic can overflow; fallible instruction
handlers return `Except`; an instruction error means the host rolls the
whole atomic unit back, which the `run*` wrappers make explicit by
returning the pre-state.
-/

namespace NcToken

/-- Model of a Solana public key: its 32 raw bytes. -/
abbrev Pubkey := List Nat

/-- Rust `Pubkey::default()`: the all-zero key. -/
def Pubkey.zero : Pubkey := List.replicate 32 0

/-- Wrapping `u64` arithmetic (release-mode Rust `+=` semantics). -/
def wrap64 (n : Nat) : Nat := n % 2 ^ 64

/-- Wrapping `i64` arithmetic (release-mode Rust `+` semantics). -/
def wrapI64 (x : Int) : Int := (x + 2 ^ 63) % 2 ^ 64 - 2 ^ 63

/-- Little-endian byte list to natural number. -/
def leBytesToNat : List Nat → Nat
  | [] => 0
  | b :: bs => b % 256 + 256 * leBytesToNat bs

/-- `u64::to_le_bytes`. -/
def u64ToLeBytes (n : Nat) : List Nat :=
  (List.range 8).map fun i => n / 256 ^ i % 256

/-- `i64::to_le_bytes` (two's complement little-endian encoding). -/
def i64ToLeBytes (x : Int) : List Nat :=
  u64ToLeBytes (x % 2 ^ 64).toNat

/-- `u64::from_le_bytes` on the first 8 bytes. -/
def u64FromLeBytes (l : List Nat) : Nat :=
  leBytesToNat (l.take 8)

/-- `i64::from_le_bytes` on the first 8 bytes. -/
def i64FromLeBytes (l : List Nat) : Int :=
  let u := u64FromLeBytes l
  if u < 2 ^ 63 then (u : Int) else (u : Int) - 2 ^ 64

namespace Gov

/-- `governance::TransactionType` (the 11 queued-transaction kinds). -/
inductive TransactionType
  | Unpause
  | Blacklist
  | NoSellLimit
  | Restrict
  | Pair
  | SetRequiredApprovals
  | SetCooldownPeriod
  | SetBridgeAddress
  | SetBondAddress
  | SetTreasuryAddress
  | WithdrawToTreasury
  deriving DecidableEq, Repr

/-- `governance::TransactionStatus`. -/
inductive TransactionStatus
  | Pending
  | Rejected
  | Executed
  deriving DecidableEq, Repr

/-- `governance::GovernanceError` error codes. -/
inductive GovernanceError
  | TokenProgramNotSet
  | TokenProgramAlreadySet
  | PresaleProgramNotSet
  | PresaleProgramAlreadySet
  | InvalidTransactionId
  | TransactionNotPending
  | AlreadyApproved
  | CooldownNotExpired
  | InsufficientApprovals
  | EmptyRejectionReason
  | InvalidRequiredApprovals
  | InvalidCooldownPeriod
  | CooldownPeriodTooLow
  | CooldownPeriodTooHigh
  | InvalidAccount
  | InvalidRole
  | Unauthorized
  | NotAuthorizedSigner
  | RequiredApprovalsTooLow
  | RequiredApprovalsTooHigh
  | DuplicateSigners
  | InvalidDataLength
  | InvalidAmount
  deriving DecidableEq, Repr

/-- An instruction-level failure: either the governance program's own error
code, or an error propagated out of a cross-program invocation (whose code
belongs to the invoked program and is opaque here). -/
inductive GovErr
  | gov : GovernanceError → GovErr
  | cpiFailed
  deriving DecidableEq, Repr

/-- `governance::GovernanceState` account. -/
structure GovernanceState where
  authority : Pubkey
  required_approvals : Nat
  cooldown_period : Int
  next_transaction_id : Nat
  token_program : Pubkey
  token_program_set : Bool
  presale_program : Pubkey
  presale_program_set : Bool
  bump : Nat
  signers : List Pubkey
  deriving DecidableEq, Repr

/-- `GovernanceState::MIN_REQUIRED_APPROVALS`. -/
def GovernanceState.MIN_REQUIRED_APPROVALS : Nat := 2

/-- `GovernanceState::MIN_COOLDOWN_SECONDS` (30 minutes). -/
def GovernanceState.MIN_COOLDOWN_SECONDS : Int := 1800

/-- `GovernanceState::MAX_COOLDOWN_SECONDS` (30 days). -/
def GovernanceState.MAX_COOLDOWN_SECONDS : Int := 2592000

/-- `GovernanceState::MAX_SIGNERS`. -/
def GovernanceState.MAX_SIGNERS : Nat := 10

/-- `GovernanceState::is_authorized_signer`: membership in `signers`. -/
def GovernanceState.is_authorized_signer (g : GovernanceState) (k : Pubkey) : Bool :=
  g.signers.contains k

/-- `governance::Transaction` account. -/
structure Transaction where
  id : Nat
  tx_type : TransactionType
  status : TransactionStatus
  initiator : Pubkey
  target : Pubkey
  data : List Nat
  timestamp : Int
  execute_after : Int
  approval_count : Nat
  approvals : List Pubkey
  rejection_reason : String
  rejector : Pubkey
  deriving DecidableEq, Repr

/-- `Transaction::has_approved`: membership in `approvals`. -/
def Transaction.has_approved (t : Transaction) (approver : Pubkey) : Bool :=
  t.approvals.contains approver

/-- `Transaction::add_approval`: push the approver and bump the `u8`
counter (wrapping, as unchecked release-mode Rust `+=`) unless already
present. -/
def Transaction.add_approval (t : Transaction) (approver : Pubkey) : Transaction :=
  if t.approvals.contains approver then t
  else { t with
    approvals := t.approvals ++ [approver]
    approval_count := (t.approval_count + 1) % 256 }

/-- `governance::initialize`: validates the multisig parameters and creates
the singleton `GovernanceState`. -/
def initGov (authority : Pubkey) (bump : Nat) (required_approvals : Nat)
    (cooldown_period : Int) (signers : List Pubkey) : Except GovErr GovernanceState :=
  if required_approvals < GovernanceState.MIN_REQUIRED_APPROVALS then
    .error (.gov .RequiredApprovalsTooLow)
  else if cooldown_period < GovernanceState.MIN_COOLDOWN_SECONDS then
    .error (.gov .CooldownPeriodTooLow)
  else if GovernanceState.MAX_SIGNERS < signers.length then
    .error (.gov .InvalidRequiredApprovals)
  else if signers.length < required_approvals then
    .error (.gov .RequiredApprovalsTooHigh)
  else if signers.isEmpty then
    .error (.gov .InvalidRequiredApprovals)
  else if ¬ signers.Nodup then
    .error (.gov .DuplicateSigners)
  else
    .ok {
      authority := authority
      required_approvals := required_approvals
      cooldown_period := cooldown_period
      next_transaction_id := 1
      token_program := Pubkey.zero
      token_program_set := false
      presale_program := Pubkey.zero
      presale_program_set := false
      bump := bump
      signers := signers }

/-- Common final part of every `queue_*` handler: allocate the next id
(wrapping `u64` increment), snapshot `execute_after = now + cooldown`
(wrapping `i64` addition), and write the fresh `Transaction` record. -/
def queueWrite (g : GovernanceState) (ty : TransactionType) (initiator target : Pubkey)
    (data : List Nat) (now : Int) : GovernanceState × Transaction :=
  let tx_id := g.next_transaction_id
  let g' := { g with next_transaction_id := wrap64 (g.next_transaction_id + 1) }
  let execute_after := wrapI64 (now + g.cooldown_period)
  (g', {
    id := tx_id
    tx_type := ty
    status := .Pending
    initiator := initiator
    target := target
    data := data
    timestamp := now
    execute_after := execute_after
    approval_count := 0
    approvals := []
    rejection_reason := ""
    rejector := Pubkey.zero })

/-- `governance::queue_unpause`. -/
def queue_unpause (g : GovernanceState) (initiator : Pubkey) (now : Int) :
    Except GovErr (GovernanceState × Transaction) :=
  if ¬ g.token_program_set then .error (.gov .TokenProgramNotSet)
  else if ¬ g.is_authorized_signer initiator then .error (.gov .NotAuthorizedSigner)
  else .ok (queueWrite g .Unpause initiator Pubkey.zero [] now)

/-- `governance::queue_set_blacklist`: payload is the 32 address bytes
followed by one boolean byte. -/
def queue_set_blacklist (g : GovernanceState) (account : Pubkey) (value : Bool)
    (initiator : Pubkey) (now : Int) : Except GovErr (GovernanceState × Transaction) :=
  if ¬ g.token_program_set then .error (.gov .TokenProgramNotSet)
  else if ¬ g.is_authorized_signer initiator then .error (.gov .NotAuthorizedSigner)
  else if account = Pubkey.zero then .error (.gov .InvalidAccount)
  else .ok (queueWrite g .Blacklist initiator account
    (account ++ [if value then 1 else 0]) now)

/-- `governance::queue_set_no_sell_limit` (also validates the 33-byte
payload length). -/
def queue_set_no_sell_limit (g : GovernanceState) (account : Pubkey) (value : Bool)
    (initiator : Pubkey) (now : Int) : Except GovErr (GovernanceState × Transaction) :=
  if ¬ g.token_program_set then .error (.gov .TokenProgramNotSet)
  else if ¬ g.is_authorized_signer initiator then .error (.gov .NotAuthorizedSigner)
  else if account = Pubkey.zero then .error (.gov .InvalidAccount)
  else
    let data := account ++ [if value then 1 else 0]
    if data.length ≠ 33 then .error (.gov .InvalidDataLength)
    else .ok (queueWrite g .NoSellLimit initiator account data now)

/-- `governance::queue_set_restricted`. -/
def queue_set_restricted (g : GovernanceState) (account : Pubkey) (value : Bool)
    (initiator : Pubkey) (now : Int) : Except GovErr (GovernanceState × Transaction) :=
  if ¬ g.token_program_set then .error (.gov .TokenProgramNotSet)
  else if ¬ g.is_authorized_signer initiator then .error (.gov .NotAuthorizedSigner)
  else if account = Pubkey.zero then .error (.gov .InvalidAccount)
  else .ok (queueWrite g .Restrict initiator account
    (account ++ [if value then 1 else 0]) now)

/-- `governance::queue_set_liquidity_pool`. -/
def queue_set_liquidity_pool (g : GovernanceState) (pool : Pubkey) (value : Bool)
    (initiator : Pubkey) (now : Int) : Except GovErr (GovernanceState × Transaction) :=
  if ¬ g.token_program_set then .error (.gov .TokenProgramNotSet)
  else if ¬ g.is_authorized_signer initiator then .error (.gov .NotAuthorizedSigner)
  else if pool = Pubkey.zero then .error (.gov .InvalidAccount)
  else .ok (queueWrite g .Pair initiator pool
    (pool ++ [if value then 1 else 0]) now)

/-- `governance::queue_set_bridge_address`: payload is the 32 address bytes. -/
def queue_set_bridge_address (g : GovernanceState) (bridge_address : Pubkey)
    (initiator : Pubkey) (now : Int) : Except GovErr (GovernanceState × Transaction) :=
  if ¬ g.token_program_set then .error (.gov .TokenProgramNotSet)
  else if ¬ g.is_authorized_signer initiator then .error (.gov .NotAuthorizedSigner)
  else if bridge_address = Pubkey.zero then .error (.gov .InvalidAccount)
  else .ok (queueWrite g .SetBridgeAddress initiator bridge_address bridge_address now)

/-- `governance::queue_set_bond_address`. -/
def queue_set_bond_address (g : GovernanceState) (bond_address : Pubkey)
    (initiator : Pubkey) (now : Int) : Except GovErr (GovernanceState × Transaction) :=
  if ¬ g.token_program_set then .error (.gov .TokenProgramNotSet)
  else if ¬ g.is_authorized_signer initiator then .error (.gov .NotAuthorizedSigner)
  else if bond_address = Pubkey.zero then .error (.gov .InvalidAccount)
  else .ok (queueWrite g .SetBondAddress initiator bond_address bond_address now)

/-- `governance::queue_set_treasury_address` (requires the presale program
to be configured). -/
def queue_set_treasury_address (g : GovernanceState) (treasury_address : Pubkey)
    (initiator : Pubkey) (now : Int) : Except GovErr (GovernanceState × Transaction) :=
  if ¬ g.presale_program_set then .error (.gov .PresaleProgramNotSet)
  else if ¬ g.is_authorized_signer initiator then .error (.gov .NotAuthorizedSigner)
  else if treasury_address = Pubkey.zero then .error (.gov .InvalidAccount)
  else .ok (queueWrite g .SetTreasuryAddress initiator treasury_address treasury_address now)

/-- `governance::queue_withdraw_to_treasury`: payload is the amount as 8
little-endian bytes. -/
def queue_withdraw_to_treasury (g : GovernanceState) (amount : Nat)
    (initiator : Pubkey) (now : Int) : Except GovErr (GovernanceState × Transaction) :=
  if ¬ g.presale_program_set then .error (.gov .PresaleProgramNotSet)
  else if ¬ g.is_authorized_signer initiator then .error (.gov .NotAuthorizedSigner)
  else if amount = 0 then .error (.gov .InvalidAmount)
  else .ok (queueWrite g .WithdrawToTreasury initiator Pubkey.zero (u64ToLeBytes amount) now)

/-- `governance::queue_set_required_approvals`: payload is one byte. -/
def queue_set_required_approvals (g : GovernanceState) (required : Nat)
    (initiator : Pubkey) (now : Int) : Except GovErr (GovernanceState × Transaction) :=
  if ¬ g.is_authorized_signer initiator then .error (.gov .NotAuthorizedSigner)
  else if required < GovernanceState.MIN_REQUIRED_APPROVALS then
    .error (.gov .RequiredApprovalsTooLow)
  else if g.signers.length < required then .error (.gov .RequiredApprovalsTooHigh)
  else .ok (queueWrite g .SetRequiredApprovals initiator Pubkey.zero [required] now)

/-- `governance::queue_set_cooldown_period`: payload is the period as 8
little-endian bytes; both the 1800s floor and the 30-day ceiling are
validated at queue time. -/
def queue_set_cooldown_period (g : GovernanceState) (period : Int)
    (initiator : Pubkey) (now : Int) : Except GovErr (GovernanceState × Transaction) :=
  if ¬ g.is_authorized_signer initiator then .error (.gov .NotAuthorizedSigner)
  else if period < GovernanceState.MIN_COOLDOWN_SECONDS then
    .error (.gov .CooldownPeriodTooLow)
  else if GovernanceState.MAX_COOLDOWN_SECONDS < period then
    .error (.gov .CooldownPeriodTooHigh)
  else .ok (queueWrite g .SetCooldownPeriod initiator Pubkey.zero (i64ToLeBytes period) now)

/-- `governance::approve_transaction`: id check, pending check, duplicate
check, signer-authorization check, then `add_approval`. -/
def approve_transaction (g : GovernanceState) (t : Transaction) (tx_id : Nat)
    (approver : Pubkey) : Except GovErr Transaction :=
  if t.id ≠ tx_id then .error (.gov .InvalidTransactionId)
  else if t.status ≠ .Pending then .error (.gov .TransactionNotPending)
  else if t.has_approved approver then .error (.gov .AlreadyApproved)
  else if ¬ g.is_authorized_signer approver then .error (.gov .NotAuthorizedSigner)
  else .ok (t.add_approval approver)

/-- `governance::reject_transaction`: authorization first, then id check,
pending check, non-empty and length-bounded reason, then the terminal flip
to `Rejected`. -/
def reject_transaction (g : GovernanceState) (t : Transaction) (tx_id : Nat)
    (reason : String) (approver : Pubkey) : Except GovErr Transaction :=
  if ¬ g.is_authorized_signer approver then .error (.gov .NotAuthorizedSigner)
  else if t.id ≠ tx_id then .error (.gov .InvalidTransactionId)
  else if t.status ≠ .Pending then .error (.gov .TransactionNotPending)
  else if reason = "" then .error (.gov .EmptyRejectionReason)
  else if 256 < reason.length then .error (.gov .EmptyRejectionReason)
  else .ok { t with
    status := .Rejected
    rejection_reason := reason
    rejector := approver }

/-- Keys of the extra accounts supplied to `execute_transaction`, plus the
outcome of the single cross-program invocation each dispatch branch may
issue (the CPI's own checks live in the invoked program and are opaque
here). -/
structure ExecuteAccounts where
  target_account : Pubkey
  pool_address : Pubkey
  cpiOk : Bool
  deriving DecidableEq, Repr

/-- `governance::execute_transaction`: id and pending checks, the early
flip to `Executed` (re-entrancy guard), cooldown check, quorum check, then
the per-kind dispatch of the CPI Dispatcher. The source flips the status
before the cooldown and quorum checks; the flip only touches `status`, so
those checks read the same field values either way, and on the error paths
the host rolls the flip back — the flip is therefore observable exactly in
the success results, where the returned record carries it. -/
def execute_transaction (g : GovernanceState) (t : Transaction) (tx_id : Nat)
    (now : Int) (acc : ExecuteAccounts) : Except GovErr (GovernanceState × Transaction) :=
  if t.id ≠ tx_id then .error (.gov .InvalidTransactionId)
  else if t.status ≠ .Pending then .error (.gov .TransactionNotPending)
  else if now < t.execute_after then .error (.gov .CooldownNotExpired)
  else if t.approval_count < g.required_approvals then .error (.gov .InsufficientApprovals)
  else
    match t.tx_type with
    | .Unpause =>
        if acc.cpiOk then .ok (g, { t with status := TransactionStatus.Executed })
        else .error .cpiFailed
    | .Blacklist =>
        if t.data.length < 33 then .error (.gov .InvalidAccount)
        else if t.data.take 32 ≠ acc.target_account then .error (.gov .InvalidAccount)
        else if acc.cpiOk then .ok (g, { t with status := TransactionStatus.Executed })
        else .error .cpiFailed
    | .NoSellLimit =>
        if t.data.length < 33 then .error (.gov .InvalidAccount)
        else if t.data.take 32 ≠ acc.target_account then .error (.gov .InvalidAccount)
        else if acc.cpiOk then .ok (g, { t with status := TransactionStatus.Executed })
        else .error .cpiFailed
    | .Restrict =>
        if t.data.length < 33 then .error (.gov .InvalidAccount)
        else if t.data.take 32 ≠ acc.target_account then .error (.gov .InvalidAccount)
        else if acc.cpiOk then .ok (g, { t with status := TransactionStatus.Executed })
        else .error .cpiFailed
    | .Pair =>
        if t.data.length < 33 then .error (.gov .InvalidAccount)
        else if t.data.take 32 ≠ acc.pool_address then .error (.gov .InvalidAccount)
        else if acc.cpiOk then .ok (g, { t with status := TransactionStatus.Executed })
        else .error .cpiFailed
    | .SetRequiredApprovals =>
        if t.data.length < 1 then .error (.gov .InvalidRequiredApprovals)
        else if t.data.getD 0 0 < GovernanceState.MIN_REQUIRED_APPROVALS then
          .error (.gov .RequiredApprovalsTooLow)
        else if g.signers.length < t.data.getD 0 0 then
          .error (.gov .RequiredApprovalsTooHigh)
        else .ok ({ g with required_approvals := t.data.getD 0 0 },
          { t with status := TransactionStatus.Executed })
    | .SetCooldownPeriod =>
        if t.data.length < 8 then .error (.gov .InvalidCooldownPeriod)
        else if i64FromLeBytes t.data < GovernanceState.MIN_COOLDOWN_SECONDS then
          .error (.gov .CooldownPeriodTooLow)
        else if GovernanceState.MAX_COOLDOWN_SECONDS < i64FromLeBytes t.data then
          .error (.gov .CooldownPeriodTooHigh)
        else .ok ({ g with cooldown_period := i64FromLeBytes t.data },
          { t with status := TransactionStatus.Executed })
    | .SetBridgeAddress =>
        if t.data.length < 32 then .error (.gov .InvalidAccount)
        else if acc.cpiOk then .ok (g, { t with status := TransactionStatus.Executed })
        else .error .cpiFailed
    | .SetBondAddress =>
        if t.data.length < 32 then .error (.gov .InvalidAccount)
        else if acc.cpiOk then .ok (g, { t with status := TransactionStatus.Executed })
        else .error .cpiFailed
    | .SetTreasuryAddress =>
        if t.data.length < 32 then .error (.gov .InvalidAccount)
        else if acc.cpiOk then .ok (g, { t with status := TransactionStatus.Executed })
        else .error .cpiFailed
    | .WithdrawToTreasury =>
        if t.data.length < 8 then .error (.gov .InvalidAccount)
        else if acc.cpiOk then .ok (g, { t with status := TransactionStatus.Executed })
        else .error .cpiFailed

/-- `governance::set_cooldown_period` (deprecated direct setter): only the
1800s floor is validated, not the ceiling. -/
def set_cooldown_period (g : GovernanceState) (authority : Pubkey) (period : Int) :
    Except GovErr GovernanceState :=
  if ¬ g.is_authorized_signer authority then .error (.gov .NotAuthorizedSigner)
  else if period < GovernanceState.MIN_COOLDOWN_SECONDS then
    .error (.gov .CooldownPeriodTooLow)
  else if g.authority ≠ authority then .error (.gov .Unauthorized)
  else .ok { g with cooldown_period := period }

/-- Host semantics of an `approve_transaction` instruction: on error the
atomic unit is rolled back, so the account keeps its pre-state. -/
def runApprove (g : GovernanceState) (t : Transaction) (tx_id : Nat)
    (approver : Pubkey) : Transaction :=
  match approve_transaction g t tx_id approver with
  | .ok t' => t'
  | .error _ => t

/-- Host semantics of a `reject_transaction` instruction (rollback on
error). -/
def runReject (g : GovernanceState) (t : Transaction) (tx_id : Nat)
    (reason : String) (approver : Pubkey) : Transaction :=
  match reject_transaction g t tx_id reason approver with
  | .ok t' => t'
  | .error _ => t

/-- Host semantics of an `execute_transaction` instruction: on any error
the whole atomic unit — including the early status flip — is rolled back. -/
def runExecute (g : GovernanceState) (t : Transaction) (tx_id : Nat)
    (now : Int) (acc : ExecuteAccounts) : GovernanceState × Transaction :=
  match execute_transaction g t tx_id now acc with
  | .ok r => r
  | .error _ => (g, t)

/-- One queue instruction of any of the 11 kinds, with its arguments. -/
inductive QueueOp
  | unpause
  | setBlacklist (account : Pubkey) (value : Bool)
  | setNoSellLimit (account : Pubkey) (value : Bool)
  | setRestricted (account : Pubkey) (value : Bool)
  | setLiquidityPool (pool : Pubkey) (value : Bool)
  | setBridgeAddress (addr : Pubkey)
  | setBondAddress (addr : Pubkey)
  | setTreasuryAddress (addr : Pubkey)
  | withdrawToTreasury (amount : Nat)
  | setRequiredApprovals (required : Nat)
  | setCooldownPeriod (period : Int)
  deriving DecidableEq, Repr

/-- Dispatch a queue instruction to the corresponding handler. -/
def runQueueOp (g : GovernanceState) (op : QueueOp) (initiator : Pubkey) (now : Int) :
    Except GovErr (GovernanceState × Transaction) :=
  match op with
  | .unpause => queue_unpause g initiator now
  | .setBlacklist a v => queue_set_blacklist g a v initiator now
  | .setNoSellLimit a v => queue_set_no_sell_limit g a v initiator now
  | .setRestricted a v => queue_set_restricted g a v initiator now
  | .setLiquidityPool p v => queue_set_liquidity_pool g p v initiator now
  | .setBridgeAddress a => queue_set_bridge_address g a initiator now
  | .setBondAddress a => queue_set_bond_address g a initiator now
  | .setTreasuryAddress a => queue_set_treasury_address g a initiator now
  | .withdrawToTreasury n => queue_withdraw_to_treasury g n initiator now
  | .setRequiredApprovals r => queue_set_required_approvals g r initiator now
  | .setCooldownPeriod p => queue_set_cooldown_period g p initiator now

/-- Transaction ids handed out along a sequence of queue instructions
(failed instructions are rolled back and assign nothing). -/
def assignedIds (g : GovernanceState) : List (QueueOp × Pubkey × Int) → List Nat
  | [] => []
  | (op, who, now) :: rest =>
    match runQueueOp g op who now with
    | .ok (g', tx) => tx.id :: assignedIds g' rest
    | .error _ => assignedIds g rest

/-- The on-chain state the governance program can reach: the singleton
`GovernanceState` plus the ledger of `Transaction` accounts (each stored
at an address derived from its id). -/
structure World where
  gov : GovernanceState
  txs : List Transaction
  deriving DecidableEq, Repr

/-- Host semantics of an `execute_transaction` instruction against the
full ledger: the transaction account is addressed by its id; on error
everything is rolled back. -/
def World.execute (w : World) (tx_id : Nat) (now : Int) (acc : ExecuteAccounts) : World :=
  match w.txs.find? (fun t => t.id == tx_id) with
  | none => w
  | some t =>
    match execute_transaction w.gov t tx_id now acc with
    | .ok (g', t') => ⟨g', w.txs.map fun u => if u.id == tx_id then t' else u⟩
    | .error _ => w

end Gov

namespace Presale

/-- `presale::PresaleStatus`. -/
inductive PresaleStatus
  | NotStarted
  | Active
  | Paused
  | Stopped
  deriving DecidableEq, Repr

/-- `presale::PresaleError` error codes. -/
inductive PresaleError
  | Unauthorized
  | PresaleNotActive
  | PaymentTokenNotAllowed
  | InvalidStatus
  | Overflow
  | TokenEmergencyPaused
  | InvalidTokenProgramState
  | TreasuryNotSet
  | InvalidTreasuryAccount
  | InvalidTreasuryAddress
  | PresaleCapExceeded
  | PerUserLimitExceeded
  | InvalidAccount
  | InvalidAmount
  | BuyerBlacklisted
  | InvalidPrice
  | StalePrice
  deriving DecidableEq, Repr

/-- An instruction-level failure of the presale program: its own error
code or an error propagated from an invoked program (SPL token / system
program transfer legs). -/
inductive PErr
  | presale : PresaleError → PErr
  | cpiFailed
  deriving DecidableEq, Repr

/-- `presale::TOKEN_STATE_EMERGENCY_PAUSED_OFFSET`. -/
def TOKEN_STATE_EMERGENCY_PAUSED_OFFSET : Nat := 41

/-- `presale::CHAINLINK_DECIMALS`. -/
def CHAINLINK_DECIMALS : Nat := 8

/-- `presale::SOL_DECIMALS`. -/
def SOL_DECIMALS : Nat := 9

/-- `presale::TOKEN_DECIMALS`. -/
def TOKEN_DECIMALS : Nat := 8

/-- `presale::PRICE_FEED_STALENESS_THRESHOLD_SECONDS`. -/
def PRICE_FEED_STALENESS_THRESHOLD_SECONDS : Int := 3600

/-- `presale::PresaleState` account. -/
structure PresaleState where
  admin : Pubkey
  authority : Pubkey
  governance : Pubkey
  token_program : Pubkey
  token_program_state : Pubkey
  presale_token_mint : Pubkey
  status : PresaleStatus
  total_tokens_sold : Nat
  total_raised : Nat
  governance_set : Bool
  treasury_address : Pubkey
  max_presale_cap : Nat
  max_per_user : Nat
  token_price_usd_micro : Nat
  bump : Nat
  deriving DecidableEq, Repr

/-- `presale::UserPurchase` account. -/
structure UserPurchase where
  buyer : Pubkey
  total_purchased : Nat
  deriving DecidableEq, Repr

/-- The `buy_with_sol` pricing computation (the chain of `checked_mul` /
`checked_div` on `u128` intermediates building `tokens_to_receive`, each
`.ok_or(PresaleError::Overflow)?`, then the `u64` range check and the
rejection of a zero token amount). Each `if` mirrors one checked step in
source order: the three numerator multiplications, the two denominator
multiplications, the division (`checked_div` fails only on a zero
divisor), the `u64::MAX` bound, and the zero-amount guard. -/
def tokensToReceive (sol_amount sol_price_usd token_price_usd_micro : Nat) :
    Except PErr Nat :=
  if 2 ^ 128 ≤ sol_amount * sol_price_usd then .error (.presale .Overflow)
  else if 2 ^ 128 ≤ sol_amount * sol_price_usd * 1000000 then .error (.presale .Overflow)
  else if 2 ^ 128 ≤ sol_amount * sol_price_usd * 1000000 * 10 ^ TOKEN_DECIMALS then
    .error (.presale .Overflow)
  else if 2 ^ 128 ≤ token_price_usd_micro * 10 ^ SOL_DECIMALS then .error (.presale .Overflow)
  else if 2 ^ 128 ≤ token_price_usd_micro * 10 ^ SOL_DECIMALS * 10 ^ CHAINLINK_DECIMALS then
    .error (.presale .Overflow)
  else if token_price_usd_micro * 10 ^ SOL_DECIMALS * 10 ^ CHAINLINK_DECIMALS = 0 then
    .error (.presale .Overflow)
  else if 2 ^ 64 - 1 < sol_amount * sol_price_usd * 1000000 * 10 ^ TOKEN_DECIMALS
      / (token_price_usd_micro * 10 ^ SOL_DECIMALS * 10 ^ CHAINLINK_DECIMALS) then
    .error (.presale .Overflow)
  else if sol_amount * sol_price_usd * 1000000 * 10 ^ TOKEN_DECIMALS
      / (token_price_usd_micro * 10 ^ SOL_DECIMALS * 10 ^ CHAINLINK_DECIMALS) = 0 then
    .error (.presale .InvalidAmount)
  else .ok (sol_amount * sol_price_usd * 1000000 * 10 ^ TOKEN_DECIMALS
      / (token_price_usd_micro * 10 ^ SOL_DECIMALS * 10 ^ CHAINLINK_DECIMALS))

/-- The buyer's running total before a purchase is applied: a
freshly-created `UserPurchase` account (default buyer key) counts as
zero, as in the source's init-if-default reset. -/
def basePurchased (up : UserPurchase) : Nat :=
  if up.buyer = Pubkey.zero then 0 else up.total_purchased

/-- The `UserPurchase` record after a purchase of `tokens` is applied:
the buyer key is filled in on first use and the running total grows by
the purchased amount. -/
def appliedPurchase (up : UserPurchase) (buyer : Pubkey) (tokens : Nat) : UserPurchase where
  buyer := if up.buyer = Pubkey.zero then buyer else up.buyer
  total_purchased := basePurchased up + tokens

/-- Raw contents of the extra accounts `buy` inspects, plus the outcomes
of its two token-transfer CPIs. -/
structure BuyAccounts where
  tokenStateData : List Nat
  buyerBlacklistKey : Pubkey
  buyerBlacklistData : List Nat
  allowedTokenIsAllowed : Bool
  buyerPaymentData : List Nat
  buyerTokenData : List Nat
  paymentTokenMintKey : Pubkey
  paymentVaultData : List Nat
  paymentVaultPdaKey : Pubkey
  tokenVaultData : List Nat
  tokenVaultPdaKey : Pubkey
  paymentTransferOk : Bool
  tokenTransferOk : Bool
  deriving DecidableEq, Repr

/-- `presale::buy` (stable-asset path), with every check in source order:
active status, emergency pause, blacklist, allow-list, mint consistency,
global cap (checked add then bound), per-user cap (checked add then
bound), payment-vault consistency, the payment transfer leg, token-vault
consistency, the token transfer leg, and the checked running-total
updates; `tokens_to_receive` is `amount` (the source's 1:1 ratio). -/
def buy (st : PresaleState) (up : UserPurchase) (buyer : Pubkey)
    (acc : BuyAccounts) (amount : Nat) : Except PErr (PresaleState × UserPurchase) :=
  if st.status ≠ .Active then .error (.presale .PresaleNotActive)
  else if TOKEN_STATE_EMERGENCY_PAUSED_OFFSET < acc.tokenStateData.length ∧
      acc.tokenStateData.getD TOKEN_STATE_EMERGENCY_PAUSED_OFFSET 0 ≠ 0 then
    .error (.presale .TokenEmergencyPaused)
  else if acc.buyerBlacklistKey ≠ Pubkey.zero ∧ 41 ≤ acc.buyerBlacklistData.length ∧
      acc.buyerBlacklistData.getD 40 0 ≠ 0 then
    .error (.presale .BuyerBlacklisted)
  else if ¬ acc.allowedTokenIsAllowed then .error (.presale .PaymentTokenNotAllowed)
  else if acc.buyerPaymentData.length < 32 then .error (.presale .PaymentTokenNotAllowed)
  else if acc.buyerPaymentData.take 32 ≠ acc.paymentTokenMintKey then
    .error (.presale .PaymentTokenNotAllowed)
  else if acc.buyerTokenData.length < 32 then .error (.presale .PaymentTokenNotAllowed)
  else if acc.buyerTokenData.take 32 ≠ st.presale_token_mint then
    .error (.presale .PaymentTokenNotAllowed)
  else if 0 < st.max_presale_cap ∧ 2 ^ 64 ≤ st.total_tokens_sold + amount then
    .error (.presale .Overflow)
  else if 0 < st.max_presale_cap ∧ st.max_presale_cap < st.total_tokens_sold + amount then
    .error (.presale .PresaleCapExceeded)
  else if 0 < st.max_per_user ∧ 2 ^ 64 ≤ up.total_purchased + amount then
    .error (.presale .Overflow)
  else if 0 < st.max_per_user ∧ st.max_per_user < up.total_purchased + amount then
    .error (.presale .PerUserLimitExceeded)
  else if acc.paymentVaultData.length < 64 then .error (.presale .PaymentTokenNotAllowed)
  else if acc.paymentVaultData.take 32 ≠ acc.paymentTokenMintKey then
    .error (.presale .PaymentTokenNotAllowed)
  else if (acc.paymentVaultData.drop 32).take 32 ≠ acc.paymentVaultPdaKey then
    .error (.presale .PaymentTokenNotAllowed)
  else if ¬ acc.paymentTransferOk then .error .cpiFailed
  else if acc.tokenVaultData.length < 64 then .error (.presale .PaymentTokenNotAllowed)
  else if acc.tokenVaultData.take 32 ≠ st.presale_token_mint then
    .error (.presale .PaymentTokenNotAllowed)
  else if (acc.tokenVaultData.drop 32).take 32 ≠ acc.tokenVaultPdaKey then
    .error (.presale .PaymentTokenNotAllowed)
  else if ¬ acc.tokenTransferOk then .error .cpiFailed
  else if 2 ^ 64 ≤ st.total_tokens_sold + amount then .error (.presale .Overflow)
  else if 2 ^ 64 ≤ st.total_raised + amount then .error (.presale .Overflow)
  else if 2 ^ 64 ≤ basePurchased up + amount then .error (.presale .Overflow)
  else .ok (
    { st with
      total_tokens_sold := st.total_tokens_sold + amount
      total_raised := st.total_raised + amount },
    appliedPurchase up buyer amount)

/-- Raw contents of the extra accounts `buy_with_sol` inspects: oracle
feed reading results, token-state bytes, blacklist bytes, vault bytes,
and the outcomes of its two transfer CPIs. -/
structure BuyWithSolAccounts where
  buyerLamports : Nat
  tokenStateData : List Nat
  buyerBlacklistKey : Pubkey
  buyerBlacklistData : List Nat
  feedReadOk : Bool
  feedPrice : Int
  feedTimestamp : Int
  feedDecimals : Nat
  feedOwnerIsChainlink : Bool
  tokenVaultData : List Nat
  tokenVaultPdaKey : Pubkey
  solTransferOk : Bool
  tokenTransferOk : Bool
  deriving DecidableEq, Repr

/-- Settlement part of `presale::buy_with_sol` once the token amount is
priced: global cap (checked add then bound), per-user cap (checked add
then bound), SOL transfer leg, token-vault consistency, token transfer
leg, and the checked running-total updates. -/
def settleSolPurchase (st : PresaleState) (up : UserPurchase) (buyer : Pubkey)
    (acc : BuyWithSolAccounts) (sol_amount tokens : Nat) :
    Except PErr (PresaleState × UserPurchase) :=
  if 0 < st.max_presale_cap ∧ 2 ^ 64 ≤ st.total_tokens_sold + tokens then
    .error (.presale .Overflow)
  else if 0 < st.max_presale_cap ∧ st.max_presale_cap < st.total_tokens_sold + tokens then
    .error (.presale .PresaleCapExceeded)
  else if 0 < st.max_per_user ∧ 2 ^ 64 ≤ up.total_purchased + tokens then
    .error (.presale .Overflow)
  else if 0 < st.max_per_user ∧ st.max_per_user < up.total_purchased + tokens then
    .error (.presale .PerUserLimitExceeded)
  else if ¬ acc.solTransferOk then .error .cpiFailed
  else if acc.tokenVaultData.length < 64 then .error (.presale .PaymentTokenNotAllowed)
  else if acc.tokenVaultData.take 32 ≠ st.presale_token_mint then
    .error (.presale .PaymentTokenNotAllowed)
  else if (acc.tokenVaultData.drop 32).take 32 ≠ acc.tokenVaultPdaKey then
    .error (.presale .PaymentTokenNotAllowed)
  else if ¬ acc.tokenTransferOk then .error .cpiFailed
  else if 2 ^ 64 ≤ st.total_tokens_sold + tokens then .error (.presale .Overflow)
  else if 2 ^ 64 ≤ st.total_raised + sol_amount then .error (.presale .Overflow)
  else if 2 ^ 64 ≤ basePurchased up + tokens then .error (.presale .Overflow)
  else .ok (
    { st with
      total_tokens_sold := st.total_tokens_sold + tokens
      total_raised := st.total_raised + sol_amount },
    appliedPurchase up buyer tokens)

/-- `presale::buy_with_sol` (native-asset path): active status, positive
amount, balance check, pause, blacklist, oracle validation (readable feed,
positive price, expected decimals, staleness, owner), positive configured
token price, the widened pricing computation, then settlement
(`settleSolPurchase`). -/
def buy_with_sol (st : PresaleState) (up : UserPurchase) (buyer : Pubkey)
    (acc : BuyWithSolAccounts) (now : Int) (sol_amount : Nat) :
    Except PErr (PresaleState × UserPurchase) :=
  if st.status ≠ .Active then .error (.presale .PresaleNotActive)
  else if sol_amount = 0 then .error (.presale .InvalidAmount)
  else if acc.buyerLamports < sol_amount then .error (.presale .InvalidAmount)
  else if TOKEN_STATE_EMERGENCY_PAUSED_OFFSET < acc.tokenStateData.length ∧
      acc.tokenStateData.getD TOKEN_STATE_EMERGENCY_PAUSED_OFFSET 0 ≠ 0 then
    .error (.presale .TokenEmergencyPaused)
  else if acc.buyerBlacklistKey ≠ Pubkey.zero ∧ 41 ≤ acc.buyerBlacklistData.length ∧
      acc.buyerBlacklistData.getD 40 0 ≠ 0 then
    .error (.presale .BuyerBlacklisted)
  else if ¬ acc.feedReadOk then .error (.presale .InvalidPrice)
  else if acc.feedPrice ≤ 0 then .error (.presale .InvalidPrice)
  else if acc.feedDecimals ≠ CHAINLINK_DECIMALS then .error (.presale .InvalidPrice)
  else if now - acc.feedTimestamp < -(2 ^ 63) ∨ 2 ^ 63 ≤ now - acc.feedTimestamp then
    .error (.presale .InvalidPrice)
  else if PRICE_FEED_STALENESS_THRESHOLD_SECONDS < now - acc.feedTimestamp then
    .error (.presale .StalePrice)
  else if ¬ acc.feedOwnerIsChainlink then .error (.presale .InvalidPrice)
  else if st.token_price_usd_micro = 0 then .error (.presale .InvalidAmount)
  else
    match tokensToReceive sol_amount acc.feedPrice.toNat st.token_price_usd_micro with
    | .error e => .error e
    | .ok tokens => settleSolPurchase st up buyer acc sol_amount tokens

/-- Host semantics of a `buy` instruction (rollback on error). -/
def runBuy (st : PresaleState) (up : UserPurchase) (buyer : Pubkey)
    (acc : BuyAccounts) (amount : Nat) : PresaleState × UserPurchase :=
  match buy st up buyer acc amount with
  | .ok r => r
  | .error _ => (st, up)

/-- Host semantics of a `buy_with_sol` instruction (rollback on error). -/
def runBuyWithSol (st : PresaleState) (up : UserPurchase) (buyer : Pubkey)
    (acc : BuyWithSolAccounts) (now : Int) (sol_amount : Nat) :
    PresaleState × UserPurchase :=
  match buy_with_sol st up buyer acc now sol_amount with
  | .ok r => r
  | .error _ => (st, up)

end Presale

namespace Gov

/-- The payload decode performed by the execute dispatcher for the
address+bool transaction kinds (`Blacklist`/`NoSellLimit`/`Restrict`/
`Pair` branches): length guard, address from bytes 0..32, boolean from
byte 32. -/
def dispatchDecodeAddrBool (d : List Nat) : Except GovErr (Pubkey × Bool) :=
  if d.length < 33 then .error (.gov .InvalidAccount)
  else .ok (d.take 32, d.getD 32 0 != 0)

/-- Concrete public key filled with one byte value, for witnesses. -/
def pk (b : Nat) : Pubkey := List.replicate 32 b

/-- A concrete fully configured governance state used by the witnesses:
three signers, quorum 2, cooldown 1800s. -/
def govBase : GovernanceState where
  authority := pk 9
  required_approvals := 2
  cooldown_period := 1800
  next_transaction_id := 1
  token_program := pk 4
  token_program_set := true
  presale_program := pk 5
  presale_program_set := true
  bump := 255
  signers := [pk 1, pk 2, pk 3]

/-- The concrete pending blacklist transaction queued from `govBase` at
time 1000 (so `execute_after` is 2800). -/
def txBase : Transaction :=
  (queueWrite govBase .Blacklist (pk 1) (pk 7) (pk 7 ++ [1]) 1000).2

/-- Concrete execute-instruction accounts matching `txBase`. -/
def accBase : ExecuteAccounts where
  target_account := pk 7
  pool_address := pk 7
  cpiOk := true

/-- Cooldown period of a successful `initialize` result. -/
def govCooldownOf (r : Except GovErr GovernanceState) : Option Int :=
  match r with
  | .ok g => some g.cooldown_period
  | .error _ => none

/-- Claim C7: encoding an (address, bool) payload at queue time (32
address bytes then one byte, 1 for true and 0 for false) and decoding it
in the execute dispatcher (address from bytes 0..32, boolean as byte 32
being nonzero) recovers exactly the original address and boolean, for
every 32-byte address and both booleans; in particular the payload stored
by `queue_set_blacklist` decodes back to its arguments. -/
theorem addr_bool_payload_roundtrip (a : Pubkey) (v : Bool) (h : a.length = 32) :
    dispatchDecodeAddrBool (a ++ [if v then 1 else 0]) = .ok (a, v) ∧
    (∀ g initiator now g' tx,
      queue_set_blacklist g a v initiator now = .ok (g', tx) →
      dispatchDecodeAddrBool tx.data = .ok (a, v)) := by
  have hdec : dispatchDecodeAddrBool (a ++ [if v then 1 else 0]) = .ok (a, v) := by
    unfold dispatchDecodeAddrBool
    have hlen : (a ++ [if v then 1 else 0]).length = 33 := by simp [h]
    rw [if_neg (by omega)]
    have h1 : (a ++ [if v then 1 else 0]).take 32 = a := by
      rw [← h]; exact List.take_left a _
    have h2 : (a ++ [if v then 1 else 0]).getD 32 0 = (if v then 1 else 0) := by
      rw [List.getD_append_right _ _ _ _ (le_of_eq h), h]
      simp
    rw [h1, h2]
    cases v <;> rfl
  refine ⟨hdec, ?_⟩
  intro g initiator now g' tx hq
  unfold queue_set_blacklist at hq
  split at hq
  · exact absurd hq (by simp)
  split at hq
  · exact absurd hq (by simp)
  split at hq
  · exact absurd hq (by simp)
  rw [Except.ok.injEq] at hq
  have ht : tx = (queueWrite g .Blacklist initiator a
      (a ++ [if v then 1 else 0]) now).2 := by
    rw [hq]
  rw [ht]
  exact hdec

/-- Claim C7 witness: the round trip at a concrete 32-byte address and
boolean. -/
theorem addr_bool_payload_roundtrip_witness :
    dispatchDecodeAddrBool (pk 7 ++ [if true then 1 else 0]) = .ok (pk 7, true) :=
  (addr_bool_payload_roundtrip (pk 7) true (by decide)).1

/-- Claim C6 counterexample: `initialize` accepts a cooldown period of
2592001 seconds, strictly above the `MAX_COOLDOWN_SECONDS` ceiling, so
not every operation that establishes `cooldown_period` validates the
upper bound. -/
theorem initGov_accepts_cooldown_above_ceiling :
    govCooldownOf (initGov (pk 9) 255 2 2592001 [pk 1, pk 2]) = some 2592001 ∧
    GovernanceState.MAX_COOLDOWN_SECONDS < 2592001 := by
  exact ⟨by decide, by decide⟩

/-- Claim C6 (amended): every operation that establishes or changes
`cooldown_period` enforces the 1800-second floor, and the governed path
(`queue_set_cooldown_period` and the `SetCooldownPeriod` execute branch)
also enforces the `MAX_COOLDOWN_SECONDS` ceiling; but `initialize` and
the deprecated direct setter `set_cooldown_period` do not check the
ceiling, so the invariant `cooldown_period ≤ MAX_COOLDOWN_SECONDS` holds
only for states whose cooldown was last set through the governed path. -/
theorem cooldown_bounds_enforcement :
    (∀ a b r c s g, initGov a b r c s = .ok g →
      GovernanceState.MIN_COOLDOWN_SECONDS ≤ g.cooldown_period) ∧
    (∀ g a p g', set_cooldown_period g a p = .ok g' →
      GovernanceState.MIN_COOLDOWN_SECONDS ≤ g'.cooldown_period ∧
      g'.cooldown_period = p) ∧
    (∀ g p ini now r, queue_set_cooldown_period g p ini now = .ok r →
      GovernanceState.MIN_COOLDOWN_SECONDS ≤ p ∧
      p ≤ GovernanceState.MAX_COOLDOWN_SECONDS) ∧
    (∀ g t tx_id now acc g' t', t.tx_type = .SetCooldownPeriod →
      execute_transaction g t tx_id now acc = .ok (g', t') →
      GovernanceState.MIN_COOLDOWN_SECONDS ≤ g'.cooldown_period ∧
      g'.cooldown_period ≤ GovernanceState.MAX_COOLDOWN_SECONDS) := by
  refine ⟨?_, ?_, ?_, ?_⟩
  · intro a b r c s g h
    unfold initGov at h
    split at h
    · exact absurd h (by simp)
    split at h
    · exact absurd h (by simp)
    rename_i hc
    split at h
    · exact absurd h (by simp)
    split at h
    · exact absurd h (by simp)
    split at h
    · exact absurd h (by simp)
    split at h
    · exact absurd h (by simp)
    rw [Except.ok.injEq] at h
    subst h
    exact le_of_not_lt hc
  · intro g a p g' h
    unfold set_cooldown_period at h
    split at h
    · exact absurd h (by simp)
    split at h
    · exact absurd h (by simp)
    rename_i hc
    split at h
    · exact absurd h (by simp)
    rw [Except.ok.injEq] at h
    subst h
    exact ⟨le_of_not_lt hc, rfl⟩
  · intro g p ini now r h
    unfold queue_set_cooldown_period at h
    split at h
    · exact absurd h (by simp)
    split at h
    · exact absurd h (by simp)
    rename_i hlo
    split at h
    · exact absurd h (by simp)
    rename_i hhi
    exact ⟨le_of_not_lt hlo, le_of_not_lt hhi⟩
  · intro g t tx_id now acc g' t' hty h
    unfold execute_transaction at h
    split at h
    · exact absurd h (by simp)
    split at h
    · exact absurd h (by simp)
    split at h
    · exact absurd h (by simp)
    split at h
    · exact absurd h (by simp)
    simp only [hty] at h
    split at h
    · exact absurd h (by simp)
    split at h
    · exact absurd h (by simp)
    rename_i hlo
    split at h
    · exact absurd h (by simp)
    rename_i hhi
    rw [Except.ok.injEq, Prod.mk.injEq] at h
    rw [← h.1]
    exact ⟨le_of_not_lt hlo, le_of_not_lt hhi⟩

/-- Claim C6 (amended) witness: queuing a 3600-second cooldown change
from the concrete configured state succeeds and 3600 is within both
bounds. -/
theorem cooldown_bounds_enforcement_witness :
    GovernanceState.MIN_COOLDOWN_SECONDS ≤ (3600 : Int) ∧
    (3600 : Int) ≤ GovernanceState.MAX_COOLDOWN_SECONDS :=
  cooldown_bounds_enforcement.2.2.1 govBase 3600 (pk 1) 1000
    (queueWrite govBase .SetCooldownPeriod (pk 1) Pubkey.zero (i64ToLeBytes 3600) 1000)
    (by rfl)

/-- Every successful queue instruction is a `queueWrite` of some kind,
target and payload at the caller-supplied time. -/
theorem runQueueOp_ok_shape (g : GovernanceState) (op : QueueOp) (who : Pubkey)
    (now : Int) (g' : GovernanceState) (tx : Transaction)
    (h : runQueueOp g op who now = .ok (g', tx)) :
    ∃ ty tgt d, (g', tx) = queueWrite g ty who tgt d now := by
  cases op <;>
    simp only [runQueueOp, queue_unpause, queue_set_blacklist, queue_set_no_sell_limit,
      queue_set_restricted, queue_set_liquidity_pool, queue_set_bridge_address,
      queue_set_bond_address, queue_set_treasury_address, queue_withdraw_to_treasury,
      queue_set_required_approvals, queue_set_cooldown_period] at h <;>
    (repeat' split at h) <;>
    first
      | (rw [Except.ok.injEq] at h; exact ⟨_, _, _, h.symm⟩)
      | exact absurd h (by simp)

/-- A successful `approve_transaction` happens only for a new approver who
is an authorized signer, and appends that approver while bumping the
counter. -/
theorem approve_transaction_ok (g : GovernanceState) (t : Transaction) (tx_id : Nat)
    (approver : Pubkey) (t' : Transaction)
    (h : approve_transaction g t tx_id approver = .ok t') :
    approver ∉ t.approvals ∧ approver ∈ g.signers ∧
    t' = { t with
      approvals := t.approvals ++ [approver]
      approval_count := (t.approval_count + 1) % 256 } := by
  unfold approve_transaction at h
  split at h
  · exact absurd h (by simp)
  split at h
  · exact absurd h (by simp)
  split at h
  · exact absurd h (by simp)
  rename_i hdup
  split at h
  · exact absurd h (by simp)
  rename_i hauth
  rw [Except.ok.injEq] at h
  have hmem : approver ∉ t.approvals := by
    simpa [Transaction.has_approved] using hdup
  have hsig : approver ∈ g.signers := by
    have hb : g.is_authorized_signer approver = true := by
      by_contra hc
      exact hauth (by simpa using hc)
    simpa [GovernanceState.is_authorized_signer] using hb
  refine ⟨hmem, hsig, ?_⟩
  rw [← h]
  unfold Transaction.add_approval
  rw [if_neg (by simpa using hmem)]

/-- A successful `reject_transaction` only flips the status and records
the reason and rejector. -/
theorem reject_transaction_ok (g : GovernanceState) (t : Transaction) (tx_id : Nat)
    (reason : String) (approver : Pubkey) (t' : Transaction)
    (h : reject_transaction g t tx_id reason approver = .ok t') :
    t' = { t with
      status := TransactionStatus.Rejected
      rejection_reason := reason
      rejector := approver } := by
  unfold reject_transaction at h
  repeat' split at h
  all_goals first
    | (rw [Except.ok.injEq] at h; exact h.symm)
    | exact absurd h (by simp)

/-- A successful `execute_transaction` changes the transaction record only
by setting its status to `Executed` (in every dispatch branch). -/
theorem execute_transaction_ok_tx (g : GovernanceState) (t : Transaction) (tx_id : Nat)
    (now : Int) (acc : ExecuteAccounts) (g' : GovernanceState) (t' : Transaction)
    (h : execute_transaction g t tx_id now acc = .ok (g', t')) :
    t' = { t with status := TransactionStatus.Executed } := by
  unfold execute_transaction at h
  split at h
  · exact absurd h (by simp)
  split at h
  · exact absurd h (by simp)
  split at h
  · exact absurd h (by simp)
  split at h
  · exact absurd h (by simp)
  split at h <;>
    (repeat' split at h) <;>
    first
      | (rw [Except.ok.injEq, Prod.mk.injEq] at h; exact h.2.symm)
      | exact absurd h (by simp)

/-- The approvals invariant of a `Transaction` record: the counter equals
the size of the approvals list, the approvers are pairwise distinct, and
every approver is one of the authorized signers. -/
def TxInvariant (signers : List Pubkey) (t : Transaction) : Prop :=
  t.approval_count = t.approvals.length ∧ t.approvals.Nodup ∧ t.approvals ⊆ signers

/-- Transaction records reachable through the public lifecycle against a
governance state with the given (immutable) signer set: created by a queue
instruction, then mutated only by successful approve, reject, or execute
instructions. -/
inductive ReachableTx (signers : List Pubkey) : Transaction → Prop
  | queued (g : GovernanceState) (op : QueueOp) (who : Pubkey) (now : Int)
      (g' : GovernanceState) (tx : Transaction)
      (h : runQueueOp g op who now = .ok (g', tx)) : ReachableTx signers tx
  | approved (g : GovernanceState) (t : Transaction) (approver : Pubkey) (t' : Transaction)
      (hs : g.signers = signers) (ht : ReachableTx signers t)
      (h : approve_transaction g t t.id approver = .ok t') : ReachableTx signers t'
  | rejected (g : GovernanceState) (t : Transaction) (reason : String) (approver : Pubkey)
      (t' : Transaction) (ht : ReachableTx signers t)
      (h : reject_transaction g t t.id reason approver = .ok t') : ReachableTx signers t'
  | executed (g : GovernanceState) (t : Transaction) (now : Int) (acc : ExecuteAccounts)
      (g' : GovernanceState) (t' : Transaction) (ht : ReachableTx signers t)
      (h : execute_transaction g t t.id now acc = .ok (g', t')) : ReachableTx signers t'

/-- Every reachable transaction record satisfies the approvals invariant
(signer sets are capped at 10 by `initialize`, so the `u8` counter cannot
wrap). -/
theorem reachableTx_invariant (signers : List Pubkey) (h10 : signers.length ≤ 10) :
    ∀ t, ReachableTx signers t → TxInvariant signers t := by
  intro t ht
  induction ht with
  | queued g op who now g' tx h =>
      obtain ⟨ty, tgt, d, hsh⟩ := runQueueOp_ok_shape g op who now g' tx h
      have htx : tx = (queueWrite g ty who tgt d now).2 := congrArg Prod.snd hsh
      rw [htx]
      exact ⟨rfl, List.nodup_nil, List.nil_subset _⟩
  | approved g t approver t' hs ht h ih =>
      obtain ⟨hmem, hsig, ht'⟩ := approve_transaction_ok g t t.id approver t' h
      obtain ⟨ihc, ihn, ihs⟩ := ih
      have hlen : t.approvals.length ≤ 10 :=
        le_trans (ihn.subperm ihs).length_le h10
      rw [ht']
      refine ⟨?_, ?_, ?_⟩
      · show (t.approval_count + 1) % 256 = (t.approvals ++ [approver]).length
        rw [ihc, List.length_append, List.length_singleton]
        exact Nat.mod_eq_of_lt (by omega)
      · show (t.approvals ++ [approver]).Nodup
        simp [List.nodup_append, ihn, hmem]
      · show t.approvals ++ [approver] ⊆ signers
        intro x hx
        rcases List.mem_append.mp hx with hx | hx
        · exact ihs hx
        · rw [List.mem_singleton.mp hx]
          rw [← hs]
          exact hsig
  | rejected g t reason approver t' ht h ih =>
      rw [reject_transaction_ok g t t.id reason approver t' h]
      exact ⟨ih.1, ih.2.1, ih.2.2⟩
  | executed g t now acc g' t' ht h ih =>
      rw [execute_transaction_ok_tx g t t.id now acc g' t' h]
      exact ⟨ih.1, ih.2.1, ih.2.2⟩

/-- Claim C3: every reachable transaction satisfies the approvals
invariant (`approval_count` equals the size of the approvals list and
each signer appears at most once); an approve by a signer already in the
approvals fails with `AlreadyApproved` and changes nothing; and a
successful approve of a reachable transaction appends exactly that signer
and increments `approval_count` by exactly 1. -/
theorem approvals_invariant (signers : List Pubkey) (h10 : signers.length ≤ 10) :
    (∀ t, ReachableTx signers t → TxInvariant signers t) ∧
    (∀ g t tx_id approver, t.id = tx_id → t.status = .Pending →
      t.has_approved approver = true →
      approve_transaction g t tx_id approver = .error (.gov .AlreadyApproved) ∧
      runApprove g t tx_id approver = t) ∧
    (∀ g t tx_id approver t', ReachableTx signers t →
      approve_transaction g t tx_id approver = .ok t' →
      t'.approvals = t.approvals ++ [approver] ∧
      t'.approval_count = t.approval_count + 1) := by
  refine ⟨reachableTx_invariant signers h10, ?_, ?_⟩
  · intro g t tx_id approver hid hp hdup
    have he : approve_transaction g t tx_id approver
        = .error (.gov .AlreadyApproved) := by
      unfold approve_transaction
      rw [if_neg (by simp [hid]), if_neg (by simp [hp]), if_pos hdup]
    refine ⟨he, ?_⟩
    unfold runApprove
    rw [he]
  · intro g t tx_id approver t' hre happ
    obtain ⟨hmem, hsig, ht'⟩ := approve_transaction_ok g t tx_id approver t' happ
    obtain ⟨ihc, ihn, ihs⟩ := reachableTx_invariant signers h10 t hre
    have hlen : t.approvals.length ≤ 10 :=
      le_trans (ihn.subperm ihs).length_le h10
    rw [ht']
    refine ⟨rfl, ?_⟩
    show (t.approval_count + 1) % 256 = t.approval_count + 1
    rw [ihc]
    exact Nat.mod_eq_of_lt (by omega)

/-- Claim C3 witness: the concrete queued transaction satisfies the
invariant; approving it with a fresh signer appends that signer and bumps
the counter by one; re-approving with the same signer fails with
`AlreadyApproved` and leaves the record unchanged. -/
theorem approvals_invariant_witness :
    TxInvariant [pk 1, pk 2, pk 3] txBase ∧
    (txBase.add_approval (pk 2)).approvals = txBase.approvals ++ [pk 2] ∧
    (txBase.add_approval (pk 2)).approval_count = txBase.approval_count + 1 ∧
    approve_transaction govBase (txBase.add_approval (pk 2)) txBase.id (pk 2)
      = .error (.gov .AlreadyApproved) ∧
    runApprove govBase (txBase.add_approval (pk 2)) txBase.id (pk 2)
      = txBase.add_approval (pk 2) := by
  have hre : ReachableTx [pk 1, pk 2, pk 3] txBase :=
    ReachableTx.queued govBase (.setBlacklist (pk 7) true) (pk 1) 1000
      { govBase with next_transaction_id := 2 } txBase (by rfl)
  have happ : approve_transaction govBase txBase txBase.id (pk 2)
      = .ok (txBase.add_approval (pk 2)) := by rfl
  have h1 := (approvals_invariant [pk 1, pk 2, pk 3] (by decide)).1 txBase hre
  have h3 := (approvals_invariant [pk 1, pk 2, pk 3] (by decide)).2.2 govBase txBase
    txBase.id (pk 2) (txBase.add_approval (pk 2)) hre happ
  have h2 := (approvals_invariant [pk 1, pk 2, pk 3] (by decide)).2.1 govBase
    (txBase.add_approval (pk 2)) txBase.id (pk 2) (by decide) (by decide) (by decide)
  exact ⟨h1, h3.1, h3.2, h2.1, h2.2⟩

/-- Wrapping `i64` addition is plain addition when the exact sum is in
the representable range. -/
theorem wrapI64_eq_self (x : Int) (h1 : -(2 ^ 63) ≤ x) (h2 : x < 2 ^ 63) :
    wrapI64 x = x := by
  unfold wrapI64
  rw [Int.emod_eq_of_lt (by omega) (by omega)]
  omega

/-- Claim C4: the transaction created by any successful queue instruction
snapshots `execute_after` as the queue-time clock plus the cooldown period
stored in `GovernanceState` at that moment (exactly, whenever the `i64`
sum does not overflow); and no execute instruction — in particular one
that performs a `SetCooldownPeriod` — changes the `execute_after` of any
transaction on the ledger. -/
theorem execute_after_snapshot :
    (∀ g op who now g' tx, runQueueOp g op who now = .ok (g', tx) →
      tx.execute_after = wrapI64 (now + g.cooldown_period) ∧
      (-(2 ^ 63) ≤ now + g.cooldown_period → now + g.cooldown_period < 2 ^ 63 →
        tx.execute_after = now + g.cooldown_period)) ∧
    (∀ w tx_id now acc, (w.txs.map Transaction.id).Nodup →
      (World.execute w tx_id now acc).txs.map Transaction.execute_after
        = w.txs.map Transaction.execute_after) := by
  constructor
  · intro g op who now g' tx h
    obtain ⟨ty, tgt, d, hsh⟩ := runQueueOp_ok_shape g op who now g' tx h
    have htx : tx = (queueWrite g ty who tgt d now).2 := congrArg Prod.snd hsh
    rw [htx]
    refine ⟨rfl, ?_⟩
    intro h1 h2
    exact wrapI64_eq_self _ h1 h2
  · intro w tx_id now acc hnd
    unfold World.execute
    split
    · rfl
    rename_i t hfind
    split
    · rename_i g' t' hexec
      show (w.txs.map fun u => if u.id == tx_id then t' else u).map Transaction.execute_after
        = w.txs.map Transaction.execute_after
      rw [List.map_map]
      refine List.map_congr_left ?_
      intro u hu
      show (if u.id == tx_id then t' else u).execute_after = u.execute_after
      by_cases hcase : u.id = tx_id
      · have htmem : t ∈ w.txs := List.mem_of_find?_eq_some hfind
        have htid : t.id = tx_id := by simpa using List.find?_some hfind
        have hut : u = t :=
          List.inj_on_of_nodup_map hnd hu htmem (by rw [hcase, htid])
        have ht' := execute_transaction_ok_tx w.gov t tx_id now acc g' t' hexec
        rw [if_pos (by simpa using hcase), hut, ht']
      · rw [if_neg (by simpa using hcase)]
    · rfl

/-- A concrete queued `SetCooldownPeriod(3600)` transaction carrying two
approvals, executable from `govBase` once the cooldown has passed. -/
def txCooldown : Transaction :=
  { (queueWrite govBase .SetCooldownPeriod (pk 1) Pubkey.zero (i64ToLeBytes 3600) 1000).2 with
    approval_count := 2
    approvals := [pk 1, pk 2] }

/-- Claim C4 witness: the concrete queued transaction's `execute_after` is
`1000 + 1800`; executing the approved `SetCooldownPeriod(3600)` transaction
does change the stored cooldown period but leaves every `execute_after` on
the ledger unchanged. -/
theorem execute_after_snapshot_witness :
    txBase.execute_after = 1000 + govBase.cooldown_period ∧
    (World.execute ⟨govBase, [txCooldown, { txBase with id := 2 }]⟩ 1 9000 accBase).gov.cooldown_period = 3600 ∧
    (World.execute ⟨govBase, [txCooldown, { txBase with id := 2 }]⟩ 1 9000 accBase).txs.map
        Transaction.execute_after
      = [txCooldown, { txBase with id := 2 }].map Transaction.execute_after := by
  refine ⟨?_, by rfl, ?_⟩
  · exact (execute_after_snapshot.1 govBase (.setBlacklist (pk 7) true) (pk 1) 1000
      { govBase with next_transaction_id := 2 } txBase (by rfl)).2 (by decide) (by decide)
  · exact execute_after_snapshot.2 ⟨govBase, [txCooldown, { txBase with id := 2 }]⟩
      1 9000 accBase (by decide)

/-- Ids handed out along a queue sequence are the consecutive range
starting at the current `next_transaction_id`, as long as the `u64`
counter does not wrap. -/
theorem assignedIds_range (ops : List (QueueOp × Pubkey × Int)) :
    ∀ g : GovernanceState, g.next_transaction_id + ops.length < 2 ^ 64 →
    ∃ k, k ≤ ops.length ∧ assignedIds g ops = List.range' g.next_transaction_id k := by
  induction ops with
  | nil =>
      intro g h
      exact ⟨0, Nat.le_refl 0, rfl⟩
  | cons p rest ih =>
      intro g h
      obtain ⟨op, who, now⟩ := p
      rcases hrun : runQueueOp g op who now with e | pr
      · have hstep : assignedIds g ((op, who, now) :: rest) = assignedIds g rest := by
          simp only [assignedIds, hrun]
        obtain ⟨k, hk, heq⟩ := ih g (by simp at h; omega)
        exact ⟨k, le_trans hk (by simp), by rw [hstep, heq]⟩
      · obtain ⟨g', tx⟩ := pr
        obtain ⟨ty, tgt, d, hsh⟩ := runQueueOp_ok_shape g op who now g' tx hrun
        have hg' : g' = (queueWrite g ty who tgt d now).1 := congrArg Prod.fst hsh
        have htx : tx = (queueWrite g ty who tgt d now).2 := congrArg Prod.snd hsh
        have hnext : g'.next_transaction_id = g.next_transaction_id + 1 := by
          rw [hg']
          show wrap64 (g.next_transaction_id + 1) = g.next_transaction_id + 1
          unfold wrap64
          exact Nat.mod_eq_of_lt (by simp at h; omega)
        have hid : tx.id = g.next_transaction_id := by rw [htx]; rfl
        have hstep : assignedIds g ((op, who, now) :: rest)
            = tx.id :: assignedIds g' rest := by
          simp only [assignedIds, hrun]
        obtain ⟨k, hk, heq⟩ := ih g' (by rw [hnext]; simp at h; omega)
        refine ⟨k + 1, by simpa using Nat.succ_le_succ hk, ?_⟩
        rw [hstep, heq, hid, hnext, List.range'_succ]

/-- Claim C5: every successful queue instruction (of any kind) hands out
the current `next_transaction_id` and bumps the counter by exactly one,
and along any sequence of queue instructions (any mix of kinds, failures
interleaved) the assigned ids form the consecutive strictly increasing
range starting at the initial counter — so no id is ever assigned twice. -/
theorem queue_ids_strictly_increasing (g : GovernanceState)
    (ops : List (QueueOp × Pubkey × Int))
    (hno : g.next_transaction_id + ops.length < 2 ^ 64) :
    (∀ g1 op who now g' tx, runQueueOp g1 op who now = .ok (g', tx) →
      tx.id = g1.next_transaction_id ∧
      g'.next_transaction_id = wrap64 (g1.next_transaction_id + 1)) ∧
    (∃ k, k ≤ ops.length ∧ assignedIds g ops = List.range' g.next_transaction_id k) ∧
    (assignedIds g ops).Nodup := by
  refine ⟨?_, ?_, ?_⟩
  · intro g1 op who now g' tx h
    obtain ⟨ty, tgt, d, hsh⟩ := runQueueOp_ok_shape g1 op who now g' tx h
    have hg' : g' = (queueWrite g1 ty who tgt d now).1 := congrArg Prod.fst hsh
    have htx : tx = (queueWrite g1 ty who tgt d now).2 := congrArg Prod.snd hsh
    rw [hg', htx]
    exact ⟨rfl, rfl⟩
  · exact assignedIds_range ops g hno
  · obtain ⟨k, _, heq⟩ := assignedIds_range ops g hno
    rw [heq]
    exact List.nodup_range' _ _ 1 Nat.one_pos

/-- Claim C5 witness: from the concrete configured state, a mix of three
queue instructions (one of which fails: a blacklist of the zero address)
assigns exactly the consecutive ids 1 and 2, and the single-step part at
the concrete first instruction returns id 1 and bumps the counter to 2. -/
theorem queue_ids_strictly_increasing_witness :
    txBase.id = govBase.next_transaction_id ∧
    assignedIds govBase
      [((.setBlacklist (pk 7) true : QueueOp), pk 1, (1000 : Int)),
       ((.setBlacklist Pubkey.zero true : QueueOp), pk 1, 1100),
       ((.setCooldownPeriod 3600 : QueueOp), pk 2, 1200)]
      = List.range' govBase.next_transaction_id 2 := by
  have h1 := (queue_ids_strictly_increasing govBase
    [((.setBlacklist (pk 7) true : QueueOp), pk 1, (1000 : Int)),
     ((.setBlacklist Pubkey.zero true : QueueOp), pk 1, 1100),
     ((.setCooldownPeriod 3600 : QueueOp), pk 2, 1200)] (by decide)).1
    govBase (.setBlacklist (pk 7) true) (pk 1) 1000
    { govBase with next_transaction_id := 2 } txBase (by rfl)
  exact ⟨h1.1, by decide⟩

/-- Claim C1: for a pending transaction, `execute_transaction` fails with
`CooldownNotExpired` when called before `execute_after` and with
`InsufficientApprovals` when (after the cooldown) the approval count is
below the quorum; and on any error the atomic rollback leaves the
transaction unchanged and still `Pending`, hence retryable. -/
theorem execute_pending_gate_errors (g : GovernanceState) (t : Transaction)
    (tx_id : Nat) (now : Int) (acc : ExecuteAccounts)
    (hid : t.id = tx_id) (hp : t.status = .Pending) :
    (now < t.execute_after →
      execute_transaction g t tx_id now acc = .error (.gov .CooldownNotExpired)) ∧
    (t.execute_after ≤ now → t.approval_count < g.required_approvals →
      execute_transaction g t tx_id now acc = .error (.gov .InsufficientApprovals)) ∧
    (∀ e, execute_transaction g t tx_id now acc = .error e →
      runExecute g t tx_id now acc = (g, t) ∧
      (runExecute g t tx_id now acc).2.status = .Pending) := by
  refine ⟨?_, ?_, ?_⟩
  · intro h
    unfold execute_transaction
    rw [if_neg (by simp [hid]), if_neg (by simp [hp]), if_pos h]
  · intro h1 h2
    unfold execute_transaction
    rw [if_neg (by simp [hid]), if_neg (by simp [hp]),
      if_neg (not_lt.mpr h1), if_pos h2]
  · intro e h
    unfold runExecute
    rw [h]
    exact ⟨rfl, hp⟩

/-- Claim C1 witness: executing the concrete pending transaction too
early fails with `CooldownNotExpired`; executing it after the cooldown
but with no approvals fails with `InsufficientApprovals`; in both cases
the rolled-back state keeps the transaction `Pending`. -/
theorem execute_pending_gate_errors_witness :
    execute_transaction govBase txBase txBase.id 1000 accBase
      = .error (.gov .CooldownNotExpired) ∧
    execute_transaction govBase txBase txBase.id 9000 accBase
      = .error (.gov .InsufficientApprovals) ∧
    runExecute govBase txBase txBase.id 1000 accBase = (govBase, txBase) ∧
    (runExecute govBase txBase txBase.id 1000 accBase).2.status = .Pending := by
  have h1 := (execute_pending_gate_errors govBase txBase txBase.id 1000 accBase
    rfl rfl).1 (by decide)
  have h2 := (execute_pending_gate_errors govBase txBase txBase.id 9000 accBase
    rfl rfl).2.1 (by decide) (by decide)
  have h3 := (execute_pending_gate_errors govBase txBase txBase.id 1000 accBase
    rfl rfl).2.2 _ h1
  exact ⟨h1, h2, h3.1, h3.2⟩

/-- Claim C2: once a transaction is `Executed` or `Rejected` (any
non-pending status), every subsequent approve, reject (by an authorized
signer), or execute call against it fails with `TransactionNotPending`
and the rollback leaves the record unchanged: there is no transition out
of a terminal state. -/
theorem terminal_status_no_transition (g : GovernanceState) (t : Transaction)
    (tx_id : Nat) (now : Int) (acc : ExecuteAccounts) (reason : String)
    (approver : Pubkey) (hid : t.id = tx_id) (hnp : t.status ≠ .Pending)
    (ha : g.is_authorized_signer approver = true) :
    approve_transaction g t tx_id approver = .error (.gov .TransactionNotPending) ∧
    reject_transaction g t tx_id reason approver = .error (.gov .TransactionNotPending) ∧
    execute_transaction g t tx_id now acc = .error (.gov .TransactionNotPending) ∧
    runApprove g t tx_id approver = t ∧
    runReject g t tx_id reason approver = t ∧
    runExecute g t tx_id now acc = (g, t) := by
  have happ : approve_transaction g t tx_id approver
      = .error (.gov .TransactionNotPending) := by
    unfold approve_transaction
    rw [if_neg (by simp [hid]), if_pos hnp]
  have hrej : reject_transaction g t tx_id reason approver
      = .error (.gov .TransactionNotPending) := by
    unfold reject_transaction
    rw [if_neg (by simp [ha]), if_neg (by simp [hid]), if_pos hnp]
  have hexe : execute_transaction g t tx_id now acc
      = .error (.gov .TransactionNotPending) := by
    unfold execute_transaction
    rw [if_neg (by simp [hid]), if_pos hnp]
  refine ⟨happ, hrej, hexe, ?_, ?_, ?_⟩
  · unfold runApprove
    rw [happ]
  · unfold runReject
    rw [hrej]
  · unfold runExecute
    rw [hexe]

/-- Claim C2 witness: against a concrete executed transaction, approve,
reject, and execute all fail with `TransactionNotPending` and leave the
record as it was. -/
theorem terminal_status_no_transition_witness :
    approve_transaction govBase { txBase with status := .Executed } txBase.id (pk 2)
      = .error (.gov .TransactionNotPending) ∧
    reject_transaction govBase { txBase with status := .Executed } txBase.id "no" (pk 2)
      = .error (.gov .TransactionNotPending) ∧
    execute_transaction govBase { txBase with status := .Executed } txBase.id 9000 accBase
      = .error (.gov .TransactionNotPending) ∧
    runApprove govBase { txBase with status := .Executed } txBase.id (pk 2)
      = { txBase with status := .Executed } ∧
    runReject govBase { txBase with status := .Executed } txBase.id "no" (pk 2)
      = { txBase with status := .Executed } ∧
    runExecute govBase { txBase with status := .Executed } txBase.id 9000 accBase
      = (govBase, { txBase with status := .Executed }) :=
  terminal_status_no_transition govBase { txBase with status := .Executed }
    txBase.id 9000 accBase "no" (pk 2) rfl (by decide) (by decide)

end Gov

namespace Presale

/-- The denominator intermediates of the pricing computation stay below
the 128-bit bound whenever `token_price_usd_micro` fits in a `u64`. -/
theorem den_intermediates_lt (m : Nat) (hm64 : m < 2 ^ 64) :
    m * 10 ^ SOL_DECIMALS < 2 ^ 128 ∧
    m * 10 ^ SOL_DECIMALS * 10 ^ CHAINLINK_DECIMALS < 2 ^ 128 := by
  have h1 : m * 10 ^ SOL_DECIMALS < 2 ^ 64 * 10 ^ SOL_DECIMALS :=
    mul_lt_mul_of_pos_right hm64 (by norm_num [SOL_DECIMALS])
  have h2 : m * 10 ^ SOL_DECIMALS * 10 ^ CHAINLINK_DECIMALS
      < 2 ^ 64 * 10 ^ SOL_DECIMALS * 10 ^ CHAINLINK_DECIMALS :=
    mul_lt_mul_of_pos_right h1 (by norm_num [CHAINLINK_DECIMALS])
  exact ⟨lt_trans h1 (by norm_num [SOL_DECIMALS]),
    lt_trans h2 (by norm_num [SOL_DECIMALS, CHAINLINK_DECIMALS])⟩

/-- A successful pricing computation returns exactly the truncated
quotient of the specification formula. -/
theorem tokensToReceive_ok_formula (a p m t : Nat)
    (h : tokensToReceive a p m = .ok t) :
    t = a * p * 1000000 * 10 ^ TOKEN_DECIMALS
      / (m * 10 ^ SOL_DECIMALS * 10 ^ CHAINLINK_DECIMALS) := by
  unfold tokensToReceive at h
  repeat' split at h
  all_goals first
    | (rw [Except.ok.injEq] at h; exact h.symm)
    | exact absurd h (by simp)

/-- A successful pricing computation never returns zero tokens. -/
theorem tokensToReceive_pos (a p m t : Nat)
    (h : tokensToReceive a p m = .ok t) : 1 ≤ t := by
  unfold tokensToReceive at h
  repeat' split at h
  all_goals first
    | (rename_i hz; rw [Except.ok.injEq] at h; subst h;
        exact Nat.one_le_iff_ne_zero.mpr hz)
    | exact absurd h (by simp)

/-- When the numerator stays below 128 bits, the divisor is a positive
`u64`, and the quotient truncates to zero, the pricing computation fails
with `InvalidAmount`. -/
theorem tokensToReceive_zero (a p m : Nat) (hm : 0 < m) (hm64 : m < 2 ^ 64)
    (hnum : a * p * 1000000 * 10 ^ TOKEN_DECIMALS < 2 ^ 128)
    (hz : a * p * 1000000 * 10 ^ TOKEN_DECIMALS
      / (m * 10 ^ SOL_DECIMALS * 10 ^ CHAINLINK_DECIMALS) = 0) :
    tokensToReceive a p m = .error (.presale .InvalidAmount) := by
  obtain ⟨hd1, hd2⟩ := den_intermediates_lt m hm64
  have hn1 : a * p ≤ a * p * 1000000 * 10 ^ TOKEN_DECIMALS :=
    le_trans (Nat.le_mul_of_pos_right _ (by norm_num))
      (Nat.le_mul_of_pos_right _ (by norm_num [TOKEN_DECIMALS]))
  have hn2 : a * p * 1000000 ≤ a * p * 1000000 * 10 ^ TOKEN_DECIMALS :=
    Nat.le_mul_of_pos_right _ (by norm_num [TOKEN_DECIMALS])
  have hden : 0 < m * 10 ^ SOL_DECIMALS * 10 ^ CHAINLINK_DECIMALS := by
    have : (0 : Nat) < 10 ^ SOL_DECIMALS := by norm_num [SOL_DECIMALS]
    have : 0 < m * 10 ^ SOL_DECIMALS := Nat.mul_pos hm this
    exact Nat.mul_pos this (by norm_num [CHAINLINK_DECIMALS])
  unfold tokensToReceive
  rw [if_neg (by omega), if_neg (by omega), if_neg (by omega),
    if_neg (by omega), if_neg (by omega), if_neg (by omega),
    if_neg (by omega), if_pos hz]

/-- Claim C8: a successful `buy_with_sol` pricing computation equals
`floor(sol_amount * oracle_price * 10^6 * 10^8 /
(token_price_usd_micro * 10^9 * 10^8))`; the computed amount is
monotonically non-decreasing in `sol_amount` and in the oracle price; and
the computation fails with the `Overflow` error — never wrapping — when
the 128-bit numerator capacity is exceeded or the result exceeds `u64`. -/
theorem buy_with_sol_pricing (a a' p p' m : Nat) (hm : 0 < m) (hm64 : m < 2 ^ 64) :
    (∀ t, tokensToReceive a p m = .ok t →
      t = a * p * 1000000 * 10 ^ TOKEN_DECIMALS
        / (m * 10 ^ SOL_DECIMALS * 10 ^ CHAINLINK_DECIMALS)) ∧
    (a ≤ a' → ∀ t t1, tokensToReceive a p m = .ok t →
      tokensToReceive a' p m = .ok t1 → t ≤ t1) ∧
    (p ≤ p' → ∀ t t1, tokensToReceive a p m = .ok t →
      tokensToReceive a p' m = .ok t1 → t ≤ t1) ∧
    ((2 ^ 128 ≤ a * p * 1000000 * 10 ^ TOKEN_DECIMALS ∨
      2 ^ 64 ≤ a * p * 1000000 * 10 ^ TOKEN_DECIMALS
        / (m * 10 ^ SOL_DECIMALS * 10 ^ CHAINLINK_DECIMALS)) →
      tokensToReceive a p m = .error (.presale .Overflow)) := by
  refine ⟨fun t ht => tokensToReceive_ok_formula a p m t ht, ?_, ?_, ?_⟩
  · intro haa t t1 ht ht1
    rw [tokensToReceive_ok_formula a p m t ht,
      tokensToReceive_ok_formula a' p m t1 ht1]
    exact Nat.div_le_div_right
      (Nat.mul_le_mul_right _ (Nat.mul_le_mul_right _ (Nat.mul_le_mul_right _ haa)))
  · intro hpp t t1 ht ht1
    rw [tokensToReceive_ok_formula a p m t ht,
      tokensToReceive_ok_formula a p' m t1 ht1]
    exact Nat.div_le_div_right
      (Nat.mul_le_mul_right _ (Nat.mul_le_mul_right _ (Nat.mul_le_mul_left _ hpp)))
  · intro hcase
    obtain ⟨hd1, hd2⟩ := den_intermediates_lt m hm64
    have hden : 0 < m * 10 ^ SOL_DECIMALS * 10 ^ CHAINLINK_DECIMALS := by
      have h9 : (0 : Nat) < 10 ^ SOL_DECIMALS := by norm_num [SOL_DECIMALS]
      exact Nat.mul_pos (Nat.mul_pos hm h9) (by norm_num [CHAINLINK_DECIMALS])
    unfold tokensToReceive
    by_cases h1 : 2 ^ 128 ≤ a * p
    · rw [if_pos h1]
    rw [if_neg h1]
    by_cases h2 : 2 ^ 128 ≤ a * p * 1000000
    · rw [if_pos h2]
    rw [if_neg h2]
    by_cases h3 : 2 ^ 128 ≤ a * p * 1000000 * 10 ^ TOKEN_DECIMALS
    · rw [if_pos h3]
    rw [if_neg h3]
    have hq := hcase.resolve_left h3
    rw [if_neg (by omega), if_neg (by omega), if_neg (by omega), if_pos (by omega)]

/-- Claim C8 witness: at one SOL, an oracle price of 140 dollars (8
decimals) and a token price of 1000 micro-dollars, the computation yields
exactly the formula value `14 * 10^12` base units; doubling the paid
amount keeps the amount monotone; and an adversarial `2^100`-lamport
input overflows the 128-bit numerator and is rejected with `Overflow`. -/
theorem buy_with_sol_pricing_witness :
    (14000000000000 : Nat)
      = 10 ^ 9 * (14 * 10 ^ 9) * 1000000 * 10 ^ TOKEN_DECIMALS
        / (1000 * 10 ^ SOL_DECIMALS * 10 ^ CHAINLINK_DECIMALS) ∧
    (14000000000000 : Nat) ≤ 28000000000000 ∧
    tokensToReceive (2 ^ 100) (2 ^ 30) 1000 = .error (.presale .Overflow) := by
  refine ⟨?_, ?_, ?_⟩
  · exact (buy_with_sol_pricing (10 ^ 9) (2 * 10 ^ 9) (14 * 10 ^ 9) (14 * 10 ^ 9) 1000
      (by norm_num) (by norm_num)).1 14000000000000 (by rfl)
  · exact (buy_with_sol_pricing (10 ^ 9) (2 * 10 ^ 9) (14 * 10 ^ 9) (14 * 10 ^ 9) 1000
      (by norm_num) (by norm_num)).2.1 (by norm_num) 14000000000000 28000000000000
      (by rfl) (by rfl)
  · exact (buy_with_sol_pricing (2 ^ 100) (2 ^ 100) (2 ^ 30) (2 ^ 30) 1000
      (by norm_num) (by norm_num)).2.2.2 (Or.inl (by norm_num [TOKEN_DECIMALS]))

/-- Concrete public key filled with one byte value, for the presale
witnesses. -/
def pkP (b : Nat) : Pubkey := List.replicate 32 b

/-- A concrete active presale: unlimited global cap, per-user cap 100,
token price 1000 micro-dollars. -/
def stBase : PresaleState where
  admin := pkP 20
  authority := pkP 20
  governance := pkP 21
  token_program := pkP 22
  token_program_state := pkP 23
  presale_token_mint := pkP 12
  status := .Active
  total_tokens_sold := 0
  total_raised := 0
  governance_set := false
  treasury_address := pkP 24
  max_presale_cap := 0
  max_per_user := 100
  token_price_usd_micro := 1000
  bump := 254

/-- Concrete well-formed accounts for a `buy` call against `stBase`. -/
def accBuyBase : BuyAccounts where
  tokenStateData := []
  buyerBlacklistKey := Pubkey.zero
  buyerBlacklistData := []
  allowedTokenIsAllowed := true
  buyerPaymentData := pkP 11
  buyerTokenData := pkP 12
  paymentTokenMintKey := pkP 11
  paymentVaultData := pkP 11 ++ pkP 13
  paymentVaultPdaKey := pkP 13
  tokenVaultData := pkP 12 ++ pkP 14
  tokenVaultPdaKey := pkP 14
  paymentTransferOk := true
  tokenTransferOk := true

/-- Claim C9: when `max_per_user` is positive and the purchase would push
the buyer's running total above it, `buy` fails with
`PerUserLimitExceeded` before any transfer, and the rollback leaves both
`total_purchased` and the presale totals unchanged. The hypotheses state
that every check preceding the per-user gate passes. -/
theorem per_user_cap_enforced (st : PresaleState) (up : UserPurchase)
    (buyer : Pubkey) (acc : BuyAccounts) (amount : Nat)
    (hactive : st.status = .Active)
    (hpause : acc.tokenStateData.getD TOKEN_STATE_EMERGENCY_PAUSED_OFFSET 0 = 0)
    (hbl : acc.buyerBlacklistData.getD 40 0 = 0)
    (hallow : acc.allowedTokenIsAllowed = true)
    (hpm : 32 ≤ acc.buyerPaymentData.length)
    (hpmk : acc.buyerPaymentData.take 32 = acc.paymentTokenMintKey)
    (htm : 32 ≤ acc.buyerTokenData.length)
    (htmk : acc.buyerTokenData.take 32 = st.presale_token_mint)
    (hcap : st.max_presale_cap = 0 ∨
      (st.total_tokens_sold + amount < 2 ^ 64 ∧
        st.total_tokens_sold + amount ≤ st.max_presale_cap))
    (huser64 : up.total_purchased + amount < 2 ^ 64)
    (hlimit : 0 < st.max_per_user)
    (hover : st.max_per_user < up.total_purchased + amount) :
    buy st up buyer acc amount = .error (.presale .PerUserLimitExceeded) ∧
    runBuy st up buyer acc amount = (st, up) := by
  have hc9 : ¬(0 < st.max_presale_cap ∧ 2 ^ 64 ≤ st.total_tokens_sold + amount) := by
    rcases hcap with h0 | ⟨h1, h2⟩
    · intro hcon
      rw [h0] at hcon
      exact absurd hcon.1 (lt_irrefl 0)
    · intro hcon
      omega
  have hc10 : ¬(0 < st.max_presale_cap ∧
      st.max_presale_cap < st.total_tokens_sold + amount) := by
    rcases hcap with h0 | ⟨h1, h2⟩
    · intro hcon
      rw [h0] at hcon
      exact absurd hcon.1 (lt_irrefl 0)
    · intro hcon
      omega
  have hc11 : ¬(0 < st.max_per_user ∧ 2 ^ 64 ≤ up.total_purchased + amount) := by
    intro hcon
    omega
  have herr : buy st up buyer acc amount = .error (.presale .PerUserLimitExceeded) := by
    unfold buy
    rw [if_neg (by simp [hactive]), if_neg (fun hcon => absurd hpause hcon.2),
      if_neg (fun hcon => absurd hbl hcon.2.2), if_neg (by simp [hallow]),
      if_neg (by omega), if_neg (by simp [hpmk]), if_neg (by omega),
      if_neg (by simp [htmk]), if_neg hc9, if_neg hc10, if_neg hc11,
      if_pos ⟨hlimit, hover⟩]
  refine ⟨herr, ?_⟩
  unfold runBuy
  rw [herr]

/-- Claim C9 witness: with per-user cap 100 a first purchase of 60
succeeds and records 60; a second purchase of 50 by the same buyer fails
with `PerUserLimitExceeded` and the rollback keeps `total_purchased` at
60 and the totals at 60. -/
theorem per_user_cap_enforced_witness :
    buy stBase ⟨Pubkey.zero, 0⟩ (pkP 30) accBuyBase 60
      = .ok ({ stBase with total_tokens_sold := 60, total_raised := 60 }, ⟨pkP 30, 60⟩) ∧
    buy { stBase with total_tokens_sold := 60, total_raised := 60 } ⟨pkP 30, 60⟩ (pkP 30)
        accBuyBase 50
      = .error (.presale .PerUserLimitExceeded) ∧
    runBuy { stBase with total_tokens_sold := 60, total_raised := 60 } ⟨pkP 30, 60⟩ (pkP 30)
        accBuyBase 50
      = ({ stBase with total_tokens_sold := 60, total_raised := 60 }, ⟨pkP 30, 60⟩) := by
  have h := per_user_cap_enforced { stBase with total_tokens_sold := 60, total_raised := 60 }
    ⟨pkP 30, 60⟩ (pkP 30) accBuyBase 50 rfl rfl rfl rfl (by decide) (by decide)
    (by decide) (by decide) (Or.inl rfl) (by decide) (by decide) (by decide)
  exact ⟨by rfl, h.1, h.2⟩

/-- A successful settlement adds exactly the priced token amount to the
sold total and to the buyer's running total, and the paid lamports to the
raised total. -/
theorem settleSolPurchase_ok (st : PresaleState) (up : UserPurchase) (buyer : Pubkey)
    (acc : BuyWithSolAccounts) (sol_amount tokens : Nat)
    (st' : PresaleState) (up' : UserPurchase)
    (h : settleSolPurchase st up buyer acc sol_amount tokens = .ok (st', up')) :
    st' = { st with
      total_tokens_sold := st.total_tokens_sold + tokens
      total_raised := st.total_raised + sol_amount } ∧
    up' = appliedPurchase up buyer tokens := by
  unfold settleSolPurchase at h
  by_cases c1 : 0 < st.max_presale_cap ∧ 2 ^ 64 ≤ st.total_tokens_sold + tokens
  · rw [if_pos c1] at h
    exact absurd h (by simp)
  rw [if_neg c1] at h
  by_cases c2 : 0 < st.max_presale_cap ∧ st.max_presale_cap < st.total_tokens_sold + tokens
  · rw [if_pos c2] at h
    exact absurd h (by simp)
  rw [if_neg c2] at h
  by_cases c3 : 0 < st.max_per_user ∧ 2 ^ 64 ≤ up.total_purchased + tokens
  · rw [if_pos c3] at h
    exact absurd h (by simp)
  rw [if_neg c3] at h
  by_cases c4 : 0 < st.max_per_user ∧ st.max_per_user < up.total_purchased + tokens
  · rw [if_pos c4] at h
    exact absurd h (by simp)
  rw [if_neg c4] at h
  by_cases c5 : ¬ acc.solTransferOk = true
  · rw [if_pos c5] at h
    exact absurd h (by simp)
  rw [if_neg c5] at h
  by_cases c6 : acc.tokenVaultData.length < 64
  · rw [if_pos c6] at h
    exact absurd h (by simp)
  rw [if_neg c6] at h
  by_cases c7 : acc.tokenVaultData.take 32 ≠ st.presale_token_mint
  · rw [if_pos c7] at h
    exact absurd h (by simp)
  rw [if_neg c7] at h
  by_cases c8 : (acc.tokenVaultData.drop 32).take 32 ≠ acc.tokenVaultPdaKey
  · rw [if_pos c8] at h
    exact absurd h (by simp)
  rw [if_neg c8] at h
  by_cases c9 : ¬ acc.tokenTransferOk = true
  · rw [if_pos c9] at h
    exact absurd h (by simp)
  rw [if_neg c9] at h
  by_cases c10 : 2 ^ 64 ≤ st.total_tokens_sold + tokens
  · rw [if_pos c10] at h
    exact absurd h (by simp)
  rw [if_neg c10] at h
  by_cases c11 : 2 ^ 64 ≤ st.total_raised + sol_amount
  · rw [if_pos c11] at h
    exact absurd h (by simp)
  rw [if_neg c11] at h
  by_cases c12 : 2 ^ 64 ≤ basePurchased up + tokens
  · rw [if_pos c12] at h
    exact absurd h (by simp)
  rw [if_neg c12] at h
  rw [Except.ok.injEq, Prod.mk.injEq] at h
  exact ⟨h.1.symm, h.2.symm⟩

/-- Claim C10: under the checks preceding the pricing step, if the
checked computation truncates to zero tokens the call fails with
`InvalidAmount` and the rollback leaves the state unchanged; and every
successful `buy_with_sol` delivers at least one token base unit (the sold
total and the buyer's running total both grow by at least one). -/
theorem zero_token_purchase_rejected (st : PresaleState) (up : UserPurchase)
    (buyer : Pubkey) (acc : BuyWithSolAccounts) (now : Int) (sol_amount : Nat)
    (hactive : st.status = .Active)
    (hs0 : sol_amount ≠ 0)
    (hlam : sol_amount ≤ acc.buyerLamports)
    (hpause : acc.tokenStateData.getD TOKEN_STATE_EMERGENCY_PAUSED_OFFSET 0 = 0)
    (hbl : acc.buyerBlacklistData.getD 40 0 = 0)
    (hfeed : acc.feedReadOk = true)
    (hprice : 0 < acc.feedPrice)
    (hdec8 : acc.feedDecimals = CHAINLINK_DECIMALS)
    (hage0 : 0 ≤ now - acc.feedTimestamp)
    (hage : now - acc.feedTimestamp ≤ PRICE_FEED_STALENESS_THRESHOLD_SECONDS)
    (howner : acc.feedOwnerIsChainlink = true)
    (hm : 0 < st.token_price_usd_micro)
    (hm64 : st.token_price_usd_micro < 2 ^ 64)
    (hnum : sol_amount * acc.feedPrice.toNat * 1000000 * 10 ^ TOKEN_DECIMALS < 2 ^ 128) :
    (sol_amount * acc.feedPrice.toNat * 1000000 * 10 ^ TOKEN_DECIMALS
        / (st.token_price_usd_micro * 10 ^ SOL_DECIMALS * 10 ^ CHAINLINK_DECIMALS) = 0 →
      buy_with_sol st up buyer acc now sol_amount = .error (.presale .InvalidAmount) ∧
      runBuyWithSol st up buyer acc now sol_amount = (st, up)) ∧
    (∀ st' up', buy_with_sol st up buyer acc now sol_amount = .ok (st', up') →
      st.total_tokens_sold + 1 ≤ st'.total_tokens_sold ∧
      basePurchased up + 1 ≤ up'.total_purchased) := by
  constructor
  · intro hz
    have herr : buy_with_sol st up buyer acc now sol_amount
        = .error (.presale .InvalidAmount) := by
      unfold buy_with_sol
      rw [if_neg (by simp [hactive]), if_neg hs0, if_neg (by omega),
        if_neg (fun hcon => absurd hpause hcon.2),
        if_neg (fun hcon => absurd hbl hcon.2.2), if_neg (by simp [hfeed]),
        if_neg (not_le.mpr hprice), if_neg (by simp [hdec8]),
        if_neg (by simp only [PRICE_FEED_STALENESS_THRESHOLD_SECONDS] at hage; omega),
        if_neg (not_lt.mpr hage), if_neg (by simp [howner]), if_neg (by omega),
        tokensToReceive_zero sol_amount acc.feedPrice.toNat st.token_price_usd_micro
          hm hm64 hnum hz]
    refine ⟨herr, ?_⟩
    unfold runBuyWithSol
    rw [herr]
  · intro st' up' h
    unfold buy_with_sol at h
    by_cases c1 : st.status ≠ .Active
    · rw [if_pos c1] at h
      exact absurd h (by simp)
    rw [if_neg c1] at h
    by_cases c2 : sol_amount = 0
    · rw [if_pos c2] at h
      exact absurd h (by simp)
    rw [if_neg c2] at h
    by_cases c3 : acc.buyerLamports < sol_amount
    · rw [if_pos c3] at h
      exact absurd h (by simp)
    rw [if_neg c3] at h
    by_cases c4 : TOKEN_STATE_EMERGENCY_PAUSED_OFFSET < acc.tokenStateData.length ∧
        acc.tokenStateData.getD TOKEN_STATE_EMERGENCY_PAUSED_OFFSET 0 ≠ 0
    · rw [if_pos c4] at h
      exact absurd h (by simp)
    rw [if_neg c4] at h
    by_cases c5 : acc.buyerBlacklistKey ≠ Pubkey.zero ∧ 41 ≤ acc.buyerBlacklistData.length ∧
        acc.buyerBlacklistData.getD 40 0 ≠ 0
    · rw [if_pos c5] at h
      exact absurd h (by simp)
    rw [if_neg c5] at h
    by_cases c6 : ¬ acc.feedReadOk = true
    · rw [if_pos c6] at h
      exact absurd h (by simp)
    rw [if_neg c6] at h
    by_cases c7 : acc.feedPrice ≤ 0
    · rw [if_pos c7] at h
      exact absurd h (by simp)
    rw [if_neg c7] at h
    by_cases c8 : acc.feedDecimals ≠ CHAINLINK_DECIMALS
    · rw [if_pos c8] at h
      exact absurd h (by simp)
    rw [if_neg c8] at h
    by_cases c9 : now - acc.feedTimestamp < -(2 ^ 63) ∨ 2 ^ 63 ≤ now - acc.feedTimestamp
    · rw [if_pos c9] at h
      exact absurd h (by simp)
    rw [if_neg c9] at h
    by_cases c10 : PRICE_FEED_STALENESS_THRESHOLD_SECONDS < now - acc.feedTimestamp
    · rw [if_pos c10] at h
      exact absurd h (by simp)
    rw [if_neg c10] at h
    by_cases c11 : ¬ acc.feedOwnerIsChainlink = true
    · rw [if_pos c11] at h
      exact absurd h (by simp)
    rw [if_neg c11] at h
    by_cases c12 : st.token_price_usd_micro = 0
    · rw [if_pos c12] at h
      exact absurd h (by simp)
    rw [if_neg c12] at h
    rcases heq : tokensToReceive sol_amount acc.feedPrice.toNat st.token_price_usd_micro
      with e | tokens
    · rw [heq] at h
      exact absurd h (by simp)
    rw [heq] at h
    change settleSolPurchase st up buyer acc sol_amount tokens = .ok (st', up') at h
    obtain ⟨hst, hup⟩ := settleSolPurchase_ok st up buyer acc sol_amount tokens st' up' h
    have hpos := tokensToReceive_pos sol_amount acc.feedPrice.toNat
      st.token_price_usd_micro tokens heq
    constructor
    · rw [hst]
      show st.total_tokens_sold + 1 ≤ st.total_tokens_sold + tokens
      omega
    · rw [hup]
      show basePurchased up + 1 ≤ basePurchased up + tokens
      omega

/-- An active presale selling at one million dollars per token, so a tiny
lamport payment prices to zero tokens. -/
def stMicro : PresaleState :=
  { stBase with token_price_usd_micro := 10 ^ 12, max_per_user := 0 }

/-- An active presale at 1000 micro-dollars per token with no caps. -/
def stOpen : PresaleState := { stBase with max_per_user := 0 }

/-- Concrete well-formed accounts for a `buy_with_sol` call: a healthy
Chainlink reading of 140 dollars at time 500. -/
def accSol : BuyWithSolAccounts where
  buyerLamports := 10 ^ 9
  tokenStateData := []
  buyerBlacklistKey := Pubkey.zero
  buyerBlacklistData := []
  feedReadOk := true
  feedPrice := 14 * 10 ^ 9
  feedTimestamp := 500
  feedDecimals := 8
  feedOwnerIsChainlink := true
  tokenVaultData := pkP 12 ++ pkP 14
  tokenVaultPdaKey := pkP 14
  solTransferOk := true
  tokenTransferOk := true

/-- Claim C10 witness: 50 lamports at a one-million-dollar token price
truncates to zero tokens and is rejected with `InvalidAmount`, leaving
the state unchanged; a full 1-SOL purchase at 1000 micro-dollars succeeds
and delivers at least one base unit. -/
theorem zero_token_purchase_rejected_witness :
    buy_with_sol stMicro ⟨Pubkey.zero, 0⟩ (pkP 30) accSol 600 50
      = .error (.presale .InvalidAmount) ∧
    runBuyWithSol stMicro ⟨Pubkey.zero, 0⟩ (pkP 30) accSol 600 50
      = (stMicro, ⟨Pubkey.zero, 0⟩) ∧
    stOpen.total_tokens_sold + 1
      ≤ ({ stOpen with
            total_tokens_sold := 14000000000000
            total_raised := 10 ^ 9 } : PresaleState).total_tokens_sold ∧
    basePurchased ⟨Pubkey.zero, 0⟩ + 1
      ≤ (appliedPurchase ⟨Pubkey.zero, 0⟩ (pkP 30) 14000000000000).total_purchased := by
  have hA := (zero_token_purchase_rejected stMicro ⟨Pubkey.zero, 0⟩ (pkP 30) accSol 600 50
    rfl (by decide) (by decide) rfl rfl rfl (by decide) rfl (by decide) (by decide)
    rfl (by decide) (by decide) (by decide)).1 (by decide)
  have hB := (zero_token_purchase_rejected stOpen ⟨Pubkey.zero, 0⟩ (pkP 30) accSol 600 (10 ^ 9)
    rfl (by decide) (by decide) rfl rfl rfl (by decide) rfl (by decide) (by decide)
    rfl (by decide) (by decide) (by decide)).2
    { stOpen with total_tokens_sold := 14000000000000, total_raised := 10 ^ 9 }
    (appliedPurchase ⟨Pubkey.zero, 0⟩ (pkP 30) 14000000000000) (by rfl)
  exact ⟨hA.1, hA.2, hB.1, hB.2⟩

end Presale

end NcToken
